import Mathlib

/-!
Verification development for the virtual-football league-table and prediction
engine (`api_client.py`, `predictor.py`, `config.py`).

Shallow embedding conventions:
* Python dictionaries that serve as records are embedded as Lean structures;
  a field that may be absent from the dictionary is an `Option`
  (`none` = key missing).
* Python float arithmetic on probabilities is embedded as exact rational
  arithmetic (`ℚ`); the decimal literals `0.6`, `0.15`, `0.5`, `2.5` of the
  source become `3/5`, `3/20`, `1/2`, `5/2`.
* Database reads (the `SELECT ... ORDER BY start_time DESC LIMIT ?` result
  sets) are passed to the embedded functions as explicit row lists.
* A Python function that can raise an exception to its caller is embedded
  with `Except`; one that swallows all exceptions and returns a sentinel is
  embedded as total, returning the sentinel (`none` / `{}`).
-/

namespace VFP

/-! ## Predictor: rows of the `matches` table as selected by
`Predictor.get_team_stats` and `Predictor.get_h2h_stats` (`predictor.py`). -/

/-- One row of the columns selected by `get_team_stats`:
`home_team, away_team, home_score, away_score, over_under_2_5,
both_teams_scored, result`. -/
structure MatchRow where
  home_team : String
  away_team : String
  home_score : Int
  away_score : Int
  over_under_2_5 : String
  both_teams_scored : String
  result : String
deriving DecidableEq

/-- One row of the columns selected by `get_h2h_stats`:
`home_team, away_team, result`. -/
structure H2HRow where
  home_team : String
  away_team : String
  result : String
deriving DecidableEq

/-- The per-team recent-form stats dictionary built by
`Predictor.get_team_stats`. -/
structure TeamFormStats where
  matches_count : Nat  -- the Python key is named matches, a reserved word in Lean
  wins : Nat
  draws : Nat
  losses : Nat
  goals_for : Int
  goals_against : Int
  btts_yes : Nat
  over_2_5 : Nat
deriving DecidableEq

/-- The dictionary returned by `Predictor.get_h2h_stats`. -/
structure H2HStats where
  home_wins : Nat
  draws : Nat
  away_wins : Nat
  total : Nat
deriving DecidableEq

/-- Python `str.lower()` (ASCII case folding, structurally recursive so that
concrete inputs evaluate inside the kernel). -/
def pyLower (s : String) : String := String.mk (s.data.map Char.toLower)

/-- The per-row accumulation loop of `get_team_stats` (`predictor.py`,
`for match in matches: ...`), folded over the selected rows; `matches` is
`len(matches)` as set in the final stats dictionary. -/
def teamStatsStep (team_name : String) (acc : TeamFormStats) (r : MatchRow) :
    TeamFormStats :=
  let is_home := team_name == r.home_team
  let acc := { acc with
    goals_for := acc.goals_for + (if is_home then r.home_score else r.away_score),
    goals_against := acc.goals_against + (if is_home then r.away_score else r.home_score) }
  let acc :=
    if r.result == "1" && is_home then { acc with wins := acc.wins + 1 }
    else if r.result == "2" && !is_home then { acc with wins := acc.wins + 1 }
    else if r.result == "X" then { acc with draws := acc.draws + 1 }
    else { acc with losses := acc.losses + 1 }
  let acc :=
    if r.both_teams_scored != "" && pyLower r.both_teams_scored == "yes" then
      { acc with btts_yes := acc.btts_yes + 1 }
    else acc
  if r.over_under_2_5 != "" && pyLower r.over_under_2_5 == "over" then
    { acc with over_2_5 := acc.over_2_5 + 1 }
  else acc

def teamStatsFold (team_name : String) (rows : List MatchRow) : TeamFormStats :=
  rows.foldl (teamStatsStep team_name)
    { matches_count := rows.length, wins := 0, draws := 0, losses := 0,
      goals_for := 0, goals_against := 0, btts_yes := 0, over_2_5 := 0 }

/-- `Predictor.get_team_stats`: returns `None` when the query yields no rows
(`if not matches: return None`), otherwise the accumulated stats. -/
def get_team_stats (team_name : String) (rows : List MatchRow) :
    Option TeamFormStats :=
  if rows.isEmpty then none else some (teamStatsFold team_name rows)

/-- `Predictor.get_h2h_stats`: counts results over the head-to-head rows;
always returns a stats dictionary (errors are swallowed into zeros). -/
def get_h2h_stats (rows : List H2HRow) : H2HStats :=
  rows.foldl
    (fun acc r =>
      if r.result == "1" then { acc with home_wins := acc.home_wins + 1 }
      else if r.result == "X" then { acc with draws := acc.draws + 1 }
      else if r.result == "2" then { acc with away_wins := acc.away_wins + 1 }
      else acc)
    { home_wins := 0, draws := 0, away_wins := 0, total := rows.length }

/-! ## Predictor: probability model of `Predictor.predict_match`. -/

/-- The raw (pre-normalization) probabilities of `predict_match`:
`home_win_rate * 0.6 + 0.15`, `away_win_rate * 0.6`,
`(home_draw_rate + away_draw_rate) / 2`, with each rate divided by
`max(matches, 1)`. Returned as (home, away, draw). -/
def rawProbs (hSt aSt : TeamFormStats) : ℚ × ℚ × ℚ :=
  let home_matches : ℕ := max hSt.matches_count 1
  let away_matches : ℕ := max aSt.matches_count 1
  let home_win_rate : ℚ := (hSt.wins : ℚ) / (home_matches : ℚ)
  let away_win_rate : ℚ := (aSt.wins : ℚ) / (away_matches : ℚ)
  let home_draw_rate : ℚ := (hSt.draws : ℚ) / (home_matches : ℚ)
  let away_draw_rate : ℚ := (aSt.draws : ℚ) / (away_matches : ℚ)
  (home_win_rate * (3/5) + 3/20, away_win_rate * (3/5),
    (home_draw_rate + away_draw_rate) / 2)

/-- The normalization denominator `total = home_win_prob + away_win_prob +
draw_prob` of `predict_match`. -/
def rawTotal (hSt aSt : TeamFormStats) : ℚ :=
  (rawProbs hSt aSt).1 + (rawProbs hSt aSt).2.1 + (rawProbs hSt aSt).2.2

/-- The normalized probabilities of `predict_match`: divide by `total` when
`total > 0`, otherwise the even `1/3` fallback. Returned as
(home, away, draw). -/
def normProbs (hSt aSt : TeamFormStats) : ℚ × ℚ × ℚ :=
  let t := rawTotal hSt aSt
  if 0 < t then
    ((rawProbs hSt aSt).1 / t, (rawProbs hSt aSt).2.1 / t,
      (rawProbs hSt aSt).2.2 / t)
  else (1/3, 1/3, 1/3)

/-- The result-decision block of `predict_match`: home-greatest first, then
away-greatest, else draw; each outcome carries its fixed scoreline literal. -/
def decideResult (hp ap dp : ℚ) : String × String :=
  if hp > ap ∧ hp > dp then ("1", "2:1")
  else if ap > hp ∧ ap > dp then ("2", "1:2")
  else ("X", "1:1")

/-- `round(q, 1)` on a percentage value, as used for the displayed
probabilities (Python rounds the float; ties are immaterial to the claims). -/
def round1 (q : ℚ) : ℚ := ((round (q * 10) : ℤ) : ℚ) / 10

/-- `btts_rate` of `predict_match`: the two teams' yes-counts over
`total_matches = max(home.matches,1) + max(away.matches,1)`, guarded by the
source's `if total_matches > 0` check. -/
def bttsRate (hSt aSt : TeamFormStats) : ℚ :=
  let total_matches : ℕ := max hSt.matches_count 1 + max aSt.matches_count 1
  if 0 < total_matches then
    ((hSt.btts_yes + aSt.btts_yes : ℕ) : ℚ) / (total_matches : ℚ)
  else 0

/-- `over_rate` of `predict_match`, analogous to `bttsRate`. -/
def overRate (hSt aSt : TeamFormStats) : ℚ :=
  let total_matches : ℕ := max hSt.matches_count 1 + max aSt.matches_count 1
  if 0 < total_matches then
    ((hSt.over_2_5 + aSt.over_2_5 : ℕ) : ℚ) / (total_matches : ℚ)
  else 0

/-- The prediction dictionary returned by `Predictor.predict_match`. -/
structure Prediction where
  home_team : String
  away_team : String
  league : String
  predicted_result : String
  predicted_score : String
  home_win_prob : ℚ
  draw_prob : ℚ
  away_win_prob : ℚ
  btts : String
  over_2_5 : String
  match_start_time : String
  home_stats : TeamFormStats
  away_stats : TeamFormStats
  h2h_stats : H2HStats
deriving DecidableEq

/-- `Predictor.predict_match` (`predictor.py`): the two teams' recent-match
row sets and the head-to-head row set stand for the corresponding database
query results; `match_start_time` stands for the string produced by
`get_match_start_time`. Returns `none` when either team's stats are `None`. -/
def predict_match (home_team away_team league : String)
    (homeRows awayRows : List MatchRow) (h2hRows : List H2HRow)
    (match_start_time : String) : Option Prediction :=
  match get_team_stats home_team homeRows, get_team_stats away_team awayRows with
  | some home_stats, some away_stats =>
    let h2h_stats := get_h2h_stats h2hRows
    let probs := normProbs home_stats away_stats
    let rs := decideResult probs.1 probs.2.1 probs.2.2
    some {
      home_team := home_team
      away_team := away_team
      league := league
      predicted_result := rs.1
      predicted_score := rs.2
      home_win_prob := round1 (probs.1 * 100)
      draw_prob := round1 (probs.2.2 * 100)
      away_win_prob := round1 (probs.2.1 * 100)
      btts := if bttsRate home_stats away_stats > 1/2 then "Yes" else "No"
      over_2_5 := if overRate home_stats away_stats > 1/2 then "Over" else "Under"
      match_start_time := match_start_time
      home_stats := home_stats
      away_stats := away_stats
      h2h_stats := h2h_stats }
  | _, _ => none

/-! ## Helper lemmas about the predictor. -/

theorem teamStatsStep_matches_count (t : String) (acc : TeamFormStats)
    (r : MatchRow) : (teamStatsStep t acc r).matches_count = acc.matches_count := by
  simp only [teamStatsStep]
  split_ifs <;> rfl

theorem foldl_teamStatsStep_matches_count (t : String) :
    ∀ (rows : List MatchRow) (acc : TeamFormStats),
      (rows.foldl (teamStatsStep t) acc).matches_count = acc.matches_count := by
  intro rows
  induction rows with
  | nil => intro acc; rfl
  | cons r rs ih =>
    intro acc
    rw [List.foldl_cons, ih, teamStatsStep_matches_count]

theorem get_team_stats_matches_count (t : String) (rows : List MatchRow)
    (s : TeamFormStats) (h : get_team_stats t rows = some s) :
    s.matches_count = rows.length ∧ 1 ≤ s.matches_count := by
  unfold get_team_stats at h
  by_cases he : rows.isEmpty
  · simp [he] at h
  · simp only [he, if_neg, Bool.false_eq_true, not_false_eq_true, if_false] at h
    have hs : teamStatsFold t rows = s := by
      exact Option.some.inj h
    have hlen : s.matches_count = rows.length := by
      rw [← hs]
      exact foldl_teamStatsStep_matches_count t rows _
    refine ⟨hlen, ?_⟩
    rw [hlen]
    cases rows with
    | nil => simp at he
    | cons a l => simp

theorem predict_match_some (home_team away_team league : String)
    (homeRows awayRows : List MatchRow) (h2hRows : List H2HRow) (t : String)
    (hSt aSt : TeamFormStats)
    (h1 : get_team_stats home_team homeRows = some hSt)
    (h2 : get_team_stats away_team awayRows = some aSt) :
    predict_match home_team away_team league homeRows awayRows h2hRows t =
      some {
        home_team := home_team
        away_team := away_team
        league := league
        predicted_result :=
          (decideResult (normProbs hSt aSt).1 (normProbs hSt aSt).2.1
            (normProbs hSt aSt).2.2).1
        predicted_score :=
          (decideResult (normProbs hSt aSt).1 (normProbs hSt aSt).2.1
            (normProbs hSt aSt).2.2).2
        home_win_prob := round1 ((normProbs hSt aSt).1 * 100)
        draw_prob := round1 ((normProbs hSt aSt).2.2 * 100)
        away_win_prob := round1 ((normProbs hSt aSt).2.1 * 100)
        btts := if bttsRate hSt aSt > 1/2 then "Yes" else "No"
        over_2_5 := if overRate hSt aSt > 1/2 then "Over" else "Under"
        match_start_time := t
        home_stats := hSt
        away_stats := aSt
        h2h_stats := get_h2h_stats h2hRows } := by
  simp [predict_match, h1, h2]

theorem get_team_stats_eq_none_iff (t : String) (rows : List MatchRow) :
    get_team_stats t rows = none ↔ rows = [] := by
  cases rows <;> simp [get_team_stats]

theorem rawTotal_eq (hSt aSt : TeamFormStats) :
    rawTotal hSt aSt =
      (hSt.wins : ℚ) / ((max hSt.matches_count 1 : ℕ) : ℚ) * (3/5) + 3/20 +
      (aSt.wins : ℚ) / ((max aSt.matches_count 1 : ℕ) : ℚ) * (3/5) +
      ((hSt.draws : ℚ) / ((max hSt.matches_count 1 : ℕ) : ℚ) +
        (aSt.draws : ℚ) / ((max aSt.matches_count 1 : ℕ) : ℚ)) / 2 := by
  simp [rawTotal, rawProbs]

theorem rawTotal_ge (hSt aSt : TeamFormStats) : (3/20 : ℚ) ≤ rawTotal hSt aSt := by
  rw [rawTotal_eq]
  have h1 : 0 ≤ (hSt.wins : ℚ) / ((max hSt.matches_count 1 : ℕ) : ℚ) := by positivity
  have h2 : 0 ≤ (aSt.wins : ℚ) / ((max aSt.matches_count 1 : ℕ) : ℚ) := by positivity
  have h3 : 0 ≤ (hSt.draws : ℚ) / ((max hSt.matches_count 1 : ℕ) : ℚ) := by positivity
  have h4 : 0 ≤ (aSt.draws : ℚ) / ((max aSt.matches_count 1 : ℕ) : ℚ) := by positivity
  linarith

theorem rawTotal_pos (hSt aSt : TeamFormStats) : 0 < rawTotal hSt aSt :=
  lt_of_lt_of_le (by norm_num) (rawTotal_ge hSt aSt)

/-! ## Claim theorems for the predictor. -/

/-- Claim C5: `predict_match` returns `None` exactly when either team has zero
recent matches in the league, i.e. exactly when `get_team_stats` yields no
data for one of the teams; no fallback prediction is synthesized in that
case, and `get_team_stats` yields no data exactly on an empty result set. -/
theorem C5_predict_none_iff_insufficient_data
    (home_team away_team league : String) (homeRows awayRows : List MatchRow)
    (h2hRows : List H2HRow) (t : String) :
    (predict_match home_team away_team league homeRows awayRows h2hRows t = none ↔
      get_team_stats home_team homeRows = none ∨
      get_team_stats away_team awayRows = none) ∧
    (get_team_stats home_team homeRows = none ↔ homeRows = []) ∧
    (get_team_stats away_team awayRows = none ↔ awayRows = []) := by
  refine ⟨?_, get_team_stats_eq_none_iff _ _, get_team_stats_eq_none_iff _ _⟩
  cases h1 : get_team_stats home_team homeRows <;>
    cases h2 : get_team_stats away_team awayRows <;>
      simp [predict_match, h1, h2]

/-- Claim C9 (implicit): for any pair of team stats the raw probability total
`(home_win_rate*0.6 + 0.15) + away_win_rate*0.6 + (home_draw_rate +
away_draw_rate)/2` is at least `0.15`, hence positive, so the `total > 0`
normalization branch of `predict_match` is always the one taken (the even
`1/3` fallback is unreachable) and the three normalized probabilities sum to
exactly `1` in exact rational arithmetic. -/
theorem C9_normalization_always_taken (hSt aSt : TeamFormStats) :
    (3/20 : ℚ) ≤ rawTotal hSt aSt ∧ 0 < rawTotal hSt aSt ∧
    normProbs hSt aSt =
      ((rawProbs hSt aSt).1 / rawTotal hSt aSt,
        (rawProbs hSt aSt).2.1 / rawTotal hSt aSt,
        (rawProbs hSt aSt).2.2 / rawTotal hSt aSt) ∧
    (normProbs hSt aSt).1 + (normProbs hSt aSt).2.1 + (normProbs hSt aSt).2.2
      = 1 := by
  have ht := rawTotal_pos hSt aSt
  have hb : normProbs hSt aSt =
      ((rawProbs hSt aSt).1 / rawTotal hSt aSt,
        (rawProbs hSt aSt).2.1 / rawTotal hSt aSt,
        (rawProbs hSt aSt).2.2 / rawTotal hSt aSt) := by
    simp [normProbs, if_pos ht]
  refine ⟨rawTotal_ge hSt aSt, ht, hb, ?_⟩
  rw [hb]
  have : (rawProbs hSt aSt).1 + (rawProbs hSt aSt).2.1 + (rawProbs hSt aSt).2.2
      = rawTotal hSt aSt := rfl
  field_simp
  linarith [this]

/-- Claim C6: when a prediction is computed, the predicted result is the
outcome with the strictly highest normalized probability, decided by checking
home-greatest first, then away-greatest, else draw (any tie defaults to
draw), and the scoreline is the fixed literal per outcome: home win `2:1`,
away win `1:2`, draw `1:1`. -/
theorem C6_result_decision_and_fixed_scorelines
    (home_team away_team league : String) (homeRows awayRows : List MatchRow)
    (h2hRows : List H2HRow) (t : String) (hSt aSt : TeamFormStats)
    (h1 : get_team_stats home_team homeRows = some hSt)
    (h2 : get_team_stats away_team awayRows = some aSt) :
    ((normProbs hSt aSt).1 > (normProbs hSt aSt).2.1 ∧
        (normProbs hSt aSt).1 > (normProbs hSt aSt).2.2 →
      (predict_match home_team away_team league homeRows awayRows h2hRows
          t).map (fun p => p.predicted_result) = some "1" ∧
      (predict_match home_team away_team league homeRows awayRows h2hRows
          t).map (fun p => p.predicted_score) = some "2:1") ∧
    ((normProbs hSt aSt).2.1 > (normProbs hSt aSt).1 ∧
        (normProbs hSt aSt).2.1 > (normProbs hSt aSt).2.2 →
      (predict_match home_team away_team league homeRows awayRows h2hRows
          t).map (fun p => p.predicted_result) = some "2" ∧
      (predict_match home_team away_team league homeRows awayRows h2hRows
          t).map (fun p => p.predicted_score) = some "1:2") ∧
    (¬((normProbs hSt aSt).1 > (normProbs hSt aSt).2.1 ∧
        (normProbs hSt aSt).1 > (normProbs hSt aSt).2.2) →
      ¬((normProbs hSt aSt).2.1 > (normProbs hSt aSt).1 ∧
        (normProbs hSt aSt).2.1 > (normProbs hSt aSt).2.2) →
      (predict_match home_team away_team league homeRows awayRows h2hRows
          t).map (fun p => p.predicted_result) = some "X" ∧
      (predict_match home_team away_team league homeRows awayRows h2hRows
          t).map (fun p => p.predicted_score) = some "1:1") := by
  rw [predict_match_some home_team away_team league homeRows awayRows h2hRows
    t hSt aSt h1 h2]
  refine ⟨fun hh => ?_, fun ha => ?_, fun hnh hna => ?_⟩
  · simp [decideResult, if_pos hh]
  · have hnh : ¬((normProbs hSt aSt).1 > (normProbs hSt aSt).2.1 ∧
        (normProbs hSt aSt).1 > (normProbs hSt aSt).2.2) := by
      intro hcon
      exact absurd ha.1 (not_lt_of_lt hcon.1)
    simp [decideResult, if_neg hnh, if_pos ha]
  · simp [decideResult, if_neg hnh, if_neg hna]

/-- Claim C7: the BTTS call is `Yes` and the Over-2.5 call is `Over` exactly
when the combined rate (sum of the two teams' yes-counts divided by the total
number of matches considered for both teams) strictly exceeds `0.5`; a
combined rate of exactly `0.5` yields `No` / `Under`. -/
theorem C7_btts_over_calls_strict_half
    (home_team away_team league : String) (homeRows awayRows : List MatchRow)
    (h2hRows : List H2HRow) (t : String) (hSt aSt : TeamFormStats)
    (h1 : get_team_stats home_team homeRows = some hSt)
    (h2 : get_team_stats away_team awayRows = some aSt) :
    ((predict_match home_team away_team league homeRows awayRows h2hRows
        t).map (fun p => p.btts) = some "Yes" ↔
      ((hSt.btts_yes + aSt.btts_yes : ℕ) : ℚ) /
        ((hSt.matches_count + aSt.matches_count : ℕ) : ℚ) > 1/2) ∧
    ((predict_match home_team away_team league homeRows awayRows h2hRows
        t).map (fun p => p.over_2_5) = some "Over" ↔
      ((hSt.over_2_5 + aSt.over_2_5 : ℕ) : ℚ) /
        ((hSt.matches_count + aSt.matches_count : ℕ) : ℚ) > 1/2) ∧
    (((hSt.btts_yes + aSt.btts_yes : ℕ) : ℚ) /
        ((hSt.matches_count + aSt.matches_count : ℕ) : ℚ) = 1/2 →
      (predict_match home_team away_team league homeRows awayRows h2hRows
        t).map (fun p => p.btts) = some "No") ∧
    (((hSt.over_2_5 + aSt.over_2_5 : ℕ) : ℚ) /
        ((hSt.matches_count + aSt.matches_count : ℕ) : ℚ) = 1/2 →
      (predict_match home_team away_team league homeRows awayRows h2hRows
        t).map (fun p => p.over_2_5) = some "Under") := by
  have hm1 := (get_team_stats_matches_count home_team homeRows hSt h1).2
  have hm2 := (get_team_stats_matches_count away_team awayRows aSt h2).2
  have e1 : max hSt.matches_count 1 = hSt.matches_count := Nat.max_eq_left hm1
  have e2 : max aSt.matches_count 1 = aSt.matches_count := Nat.max_eq_left hm2
  have hpos : 0 < hSt.matches_count + aSt.matches_count := by omega
  have hb : bttsRate hSt aSt =
      ((hSt.btts_yes + aSt.btts_yes : ℕ) : ℚ) /
        ((hSt.matches_count + aSt.matches_count : ℕ) : ℚ) := by
    simp [bttsRate, e1, e2, hpos]
  have ho : overRate hSt aSt =
      ((hSt.over_2_5 + aSt.over_2_5 : ℕ) : ℚ) /
        ((hSt.matches_count + aSt.matches_count : ℕ) : ℚ) := by
    simp [overRate, e1, e2, hpos]
  rw [predict_match_some home_team away_team league homeRows awayRows h2hRows
    t hSt aSt h1 h2]
  rw [← hb, ← ho]
  refine ⟨?_, ?_, fun hhalf => ?_, fun hhalf => ?_⟩
  · by_cases hr : bttsRate hSt aSt > 1/2 <;> simp [hr]
  · by_cases hr : overRate hSt aSt > 1/2 <;> simp [hr]
  · have hr : ¬ bttsRate hSt aSt > 1/2 := by rw [hhalf]; exact lt_irrefl _
    show some (if bttsRate hSt aSt > 1/2 then "Yes" else "No") = some "No"
    rw [if_neg hr]
  · have hr : ¬ overRate hSt aSt > 1/2 := by rw [hhalf]; exact lt_irrefl _
    show some (if overRate hSt aSt > 1/2 then "Over" else "Under") = some "Under"
    rw [if_neg hr]

/-- Claim C10 (implicit): the outcome probabilities, predicted result and
predicted scoreline depend only on the two teams' recent-form stats; for two
runs in which `get_team_stats` returns identical stats for both teams but the
head-to-head rows (and kickoff time, league label) differ, those prediction
fields coincide — head-to-head counts are only passed through in the output,
never used in the computation. -/
theorem C10_h2h_does_not_influence_probabilities
    (home_team away_team league1 league2 : String)
    (homeRows1 homeRows2 awayRows1 awayRows2 : List MatchRow)
    (h2hRows1 h2hRows2 : List H2HRow) (t1 t2 : String)
    (e1 : get_team_stats home_team homeRows1 = get_team_stats home_team homeRows2)
    (e2 : get_team_stats away_team awayRows1 = get_team_stats away_team awayRows2) :
    ((predict_match home_team away_team league1 homeRows1 awayRows1 h2hRows1
        t1).map (fun p => p.predicted_result) =
      (predict_match home_team away_team league2 homeRows2 awayRows2 h2hRows2
        t2).map (fun p => p.predicted_result)) ∧
    ((predict_match home_team away_team league1 homeRows1 awayRows1 h2hRows1
        t1).map (fun p => p.predicted_score) =
      (predict_match home_team away_team league2 homeRows2 awayRows2 h2hRows2
        t2).map (fun p => p.predicted_score)) ∧
    ((predict_match home_team away_team league1 homeRows1 awayRows1 h2hRows1
        t1).map (fun p => p.home_win_prob) =
      (predict_match home_team away_team league2 homeRows2 awayRows2 h2hRows2
        t2).map (fun p => p.home_win_prob)) ∧
    ((predict_match home_team away_team league1 homeRows1 awayRows1 h2hRows1
        t1).map (fun p => p.draw_prob) =
      (predict_match home_team away_team league2 homeRows2 awayRows2 h2hRows2
        t2).map (fun p => p.draw_prob)) ∧
    ((predict_match home_team away_team league1 homeRows1 awayRows1 h2hRows1
        t1).map (fun p => p.away_win_prob) =
      (predict_match home_team away_team league2 homeRows2 awayRows2 h2hRows2
        t2).map (fun p => p.away_win_prob)) := by
  cases hh : get_team_stats home_team homeRows1 with
  | none =>
    have hh2 : get_team_stats home_team homeRows2 = none := by rw [← e1, hh]
    simp [predict_match, hh, hh2]
  | some hSt =>
    have hh2 : get_team_stats home_team homeRows2 = some hSt := by rw [← e1, hh]
    cases ha : get_team_stats away_team awayRows1 with
    | none =>
      have ha2 : get_team_stats away_team awayRows2 = none := by rw [← e2, ha]
      simp [predict_match, hh, hh2, ha, ha2]
    | some aSt =>
      have ha2 : get_team_stats away_team awayRows2 = some aSt := by
        rw [← e2, ha]
      rw [predict_match_some home_team away_team league1 homeRows1 awayRows1
        h2hRows1 t1 hSt aSt hh ha]
      rw [predict_match_some home_team away_team league2 homeRows2 awayRows2
        h2hRows2 t2 hSt aSt hh2 ha2]
      simp

/-! ## Demo data used by the witness theorems. -/

/-- Demo recent match for the home side: it won at home, low-scoring. -/
def demoHomeRow : MatchRow :=
  { home_team := "H", away_team := "X1", home_score := 2, away_score := 0,
    over_under_2_5 := "Under", both_teams_scored := "No", result := "1" }

/-- Demo recent match for the away side: it lost while playing away. -/
def demoAwayRow : MatchRow :=
  { home_team := "X2", away_team := "A", home_score := 1, away_score := 0,
    over_under_2_5 := "Under", both_teams_scored := "No", result := "1" }

/-- Demo row with BTTS yes and Over. -/
def demoBttsYesRow : MatchRow :=
  { home_team := "H", away_team := "X1", home_score := 2, away_score := 1,
    over_under_2_5 := "Over", both_teams_scored := "Yes", result := "1" }

/-- Demo row with BTTS no and Over. -/
def demoBttsNoRow : MatchRow :=
  { home_team := "X2", away_team := "A", home_score := 3, away_score := 0,
    over_under_2_5 := "Over", both_teams_scored := "No", result := "1" }

/-- Witness for C6 at concrete inputs: a 1-win home form against a 1-loss
away form makes the home probability strictly greatest, so the predicted
result is `1` with the fixed `2:1` scoreline. -/
theorem C6_witness :
    (predict_match "H" "A" "lg" [demoHomeRow] [demoAwayRow] []
        "10:00").map (fun p => p.predicted_result) = some "1" ∧
    (predict_match "H" "A" "lg" [demoHomeRow] [demoAwayRow] []
        "10:00").map (fun p => p.predicted_score) = some "2:1" :=
  (C6_result_decision_and_fixed_scorelines "H" "A" "lg" [demoHomeRow]
    [demoAwayRow] [] "10:00" (teamStatsFold "H" [demoHomeRow])
    (teamStatsFold "A" [demoAwayRow]) rfl rfl).1 (by
      have h1 : teamStatsFold "H" [demoHomeRow] =
          { matches_count := 1, wins := 1, draws := 0, losses := 0,
            goals_for := 2, goals_against := 0, btts_yes := 0, over_2_5 := 0 } := by
        decide
      have h2 : teamStatsFold "A" [demoAwayRow] =
          { matches_count := 1, wins := 0, draws := 0, losses := 1,
            goals_for := 0, goals_against := 1, btts_yes := 0, over_2_5 := 0 } := by
        decide
      rw [h1, h2]
      norm_num [normProbs, rawProbs, rawTotal])

/-- Witness for C7 at concrete inputs: a combined BTTS rate of exactly `1/2`
yields the `No` call, and a combined Over rate of `1 > 1/2` yields `Over`. -/
theorem C7_witness :
    (predict_match "H" "A" "lg" [demoBttsYesRow] [demoBttsNoRow] []
        "10:00").map (fun p => p.btts) = some "No" ∧
    (predict_match "H" "A" "lg" [demoBttsYesRow] [demoBttsNoRow] []
        "10:00").map (fun p => p.over_2_5) = some "Over" := by
  have h1 : teamStatsFold "H" [demoBttsYesRow] =
      { matches_count := 1, wins := 1, draws := 0, losses := 0,
        goals_for := 2, goals_against := 1, btts_yes := 1, over_2_5 := 1 } := by
    decide
  have h2 : teamStatsFold "A" [demoBttsNoRow] =
      { matches_count := 1, wins := 0, draws := 0, losses := 1,
        goals_for := 0, goals_against := 3, btts_yes := 0, over_2_5 := 1 } := by
    decide
  exact ⟨(C7_btts_over_calls_strict_half "H" "A" "lg" [demoBttsYesRow]
      [demoBttsNoRow] [] "10:00" (teamStatsFold "H" [demoBttsYesRow])
      (teamStatsFold "A" [demoBttsNoRow]) rfl rfl).2.2.1
      (by rw [h1, h2]; norm_num),
    (C7_btts_over_calls_strict_half "H" "A" "lg" [demoBttsYesRow]
      [demoBttsNoRow] [] "10:00" (teamStatsFold "H" [demoBttsYesRow])
      (teamStatsFold "A" [demoBttsNoRow]) rfl rfl).2.1.mpr
      (by rw [h1, h2]; norm_num)⟩

/-- Witness for C10 at concrete inputs: two runs with the same recent-form
rows but different head-to-head rows and kickoff times agree on all five
prediction fields. -/
theorem C10_witness :
    (predict_match "H" "A" "lg" [demoHomeRow] [demoAwayRow] []
        "10:00").map (fun p => p.predicted_result) =
      (predict_match "H" "A" "lg" [demoHomeRow] [demoAwayRow]
        [{ home_team := "H", away_team := "A", result := "2" }]
        "11:00").map (fun p => p.predicted_result) :=
  (C10_h2h_does_not_influence_probabilities "H" "A" "lg" "lg" [demoHomeRow]
    [demoHomeRow] [demoAwayRow] [demoAwayRow] []
    [{ home_team := "H", away_team := "A", result := "2" }] "10:00" "11:00"
    rfl rfl).1

/-! ## String helpers: structurally recursive embeddings of the Python
string operations used by the normalizer (`str.strip`, `str.split`,
`str.replace`, substring membership, `int(...)` parsing). -/

/-- Whether `pat` is a leading segment of `l`. -/
def leadsWith : List Char → List Char → Bool
  | [], _ => true
  | _ :: _, [] => false
  | c :: cs, d :: ds => c == d && leadsWith cs ds

/-- Python `pat in s` on the underlying character lists. -/
def holdsSub (pat : List Char) : List Char → Bool
  | [] => pat.isEmpty
  | c :: ds => leadsWith pat (c :: ds) || holdsSub pat ds

/-- Drop leading whitespace from a character list. -/
def dropLeadingWs : List Char → List Char
  | [] => []
  | c :: cs => if c.isWhitespace then dropLeadingWs cs else c :: cs

/-- Python `str.strip()` (whitespace at both ends). -/
def pyStrip (s : String) : String :=
  String.mk ((dropLeadingWs ((dropLeadingWs s.data).reverse)).reverse)

/-- Python `str.split(sep)` for a single-character separator, on character
lists: always yields at least one (possibly empty) part. -/
def splitChAux (sep : Char) : List Char → List (List Char)
  | [] => [[]]
  | c :: cs =>
    let r := splitChAux sep cs
    if c == sep then [] :: r
    else
      match r with
      | [] => [[c]]
      | h :: t => (c :: h) :: t

/-- Python `s.split(sep)` for a single-character separator. -/
def pySplit (s : String) (sep : Char) : List String :=
  (splitChAux sep s.data).map String.mk

/-- One fuel-indexed pass of Python `str.replace(pat, rep)` (left-to-right,
non-overlapping); `pat` is nonempty at every use site. -/
def replaceFuel (pat rep : List Char) : Nat → List Char → List Char
  | _, [] => []
  | 0, l => l
  | n + 1, c :: cs =>
    if leadsWith pat (c :: cs) then
      rep ++ replaceFuel pat rep n (List.drop pat.length (c :: cs))
    else c :: replaceFuel pat rep n cs

/-- Python `s.replace(pat, rep)`. -/
def pyReplace (s pat rep : String) : String :=
  String.mk (replaceFuel pat.data rep.data s.data.length s.data)

/-- Base-10 digit-string value, `none` unless nonempty and all digits. -/
def pyIntDigits (l : List Char) : Option Nat :=
  if !l.isEmpty && l.all Char.isDigit then
    some (l.foldl (fun a c => a * 10 + (c.toNat - 48)) 0)
  else none

/-- Python `int(s)` on a string: optional surrounding whitespace, optional
sign, base-10 digits; `none` models a raised `ValueError`. (Underscore
digit separators are not modelled.) -/
def pyInt (s : String) : Option Int :=
  match (pyStrip s).data with
  | '+' :: rest => (pyIntDigits rest).map (fun n => (n : Int))
  | '-' :: rest => (pyIntDigits rest).map (fun n => -(n : Int))
  | l => (pyIntDigits l).map (fun n => (n : Int))

/-! ## League-name standardization (`config.py`). -/

/-- `LEAGUE_NAME_MAPPING` of `config.py`, in literal (= dict iteration)
order. -/
def LEAGUE_NAME_MAPPING : List (String × String) :=
  [("england", "england virtual"), ("spain", "spain virtual"),
   ("italy", "italy virtual"), ("germany", "germany virtual"),
   ("france", "france virtual"),
   ("england virtual", "england virtual"), ("spain virtual", "spain virtual"),
   ("italy virtual", "italy virtual"), ("germany virtual", "germany virtual"),
   ("france virtual", "france virtual"),
   ("England", "england virtual"), ("Spain", "spain virtual"),
   ("Italy", "italy virtual"), ("Germany", "germany virtual"),
   ("France", "france virtual"),
   ("England Virtual", "england virtual"), ("Spain Virtual", "spain virtual"),
   ("Italy Virtual", "italy virtual"), ("Germany Virtual", "germany virtual"),
   ("France Virtual", "france virtual")]

/-- Key lookup in `LEAGUE_NAME_MAPPING` (`k in MAPPING` / `MAPPING[k]`). -/
def mappingLookup (k : String) : Option String :=
  (LEAGUE_NAME_MAPPING.find? (fun p => p.1 == k)).map (fun p => p.2)

/-- `config.standardize_league_name`: exact lowercase-key match, then
original-case match, then first mapping entry whose key occurs inside the
lowered name, else the `"<base> virtual"` default. -/
def standardize_league_name (league_name : String) : String :=
  if league_name == "" then "unknown virtual"
  else
    let league_name := pyStrip league_name
    match mappingLookup (pyLower league_name) with
    | some v => v
    | none =>
      match mappingLookup league_name with
      | some v => v
      | none =>
        let league_lower := pyLower league_name
        match LEAGUE_NAME_MAPPING.find?
            (fun p => holdsSub (pyLower p.1).data league_lower.data) with
        | some p => p.2
        | none =>
          pyStrip (pyReplace (pyLower league_name) "virtual" "") ++ " virtual"

/-! ## Normalizer (`DataProcessor.extract_match_info`, `api_client.py`). -/

/-- A raw event dictionary as consumed by `extract_match_info`: `none` fields
stand for missing keys; `categoryName` is `event['sport']['category']['name']`. -/
structure Event where
  eventId : Option String
  gameId : Option String
  homeTeamName : Option String
  awayTeamName : Option String
  setScore : Option String
  gameScore : Option (List String)
  estimateStartTime : Option Int
  matchStatus : Option String
  categoryName : Option String
deriving DecidableEq

/-- The match-info dictionary built by `extract_match_info`. -/
structure MatchInfo where
  event_id : String
  game_id : String
  home_team : String
  away_team : String
  home_score : Int
  away_score : Int
  total_goals : Int
  ht_home_score : Int
  ht_away_score : Int
  ht_total_goals : Int
  start_time : Int
  match_status : String
  league : String
  result : String
  over_under_2_5 : String
  both_teams_scored : String
deriving DecidableEq

/-- `DataProcessor._get_match_result`: `1` / `X` / `2` encoding. -/
def get_match_result (home_score away_score : Int) : String :=
  if home_score > away_score then "1"
  else if away_score > home_score then "2"
  else "X"

/-- The guarded score parse of `extract_match_info`:
`int(parts[i]) if len(parts) >= 2 else 0`, where a failed `int(...)` is the
exception path (`none`). -/
def parsePart (parts : List String) (i : Nat) : Option Int :=
  if 2 ≤ parts.length then pyInt (parts.getD i "") else some 0

/-- `DataProcessor.extract_match_info`: validates the team names and the
presence of `setScore`, parses the full-time and half-time scores, and builds
the match dictionary; `none` models both the explicit `return {}` of the
validation branch and the `except`-swallowed exception path. -/
def extract_match_info (e : Event) : Option MatchInfo :=
  if e.homeTeamName.getD "" = "" ∨ e.awayTeamName.getD "" = "" ∨
      e.setScore = none then
    none
  else
    -- set_score = setScore.split(":"); ht_parts = gameScore[0].split(":")
    match parsePart (pySplit (e.setScore.getD "0:0") ':') 0,
        parsePart (pySplit (e.setScore.getD "0:0") ':') 1,
        parsePart (pySplit ((e.gameScore.getD ["0:0"]).getD 0 "0:0") ':') 0,
        parsePart (pySplit ((e.gameScore.getD ["0:0"]).getD 0 "0:0") ':') 1 with
    | some home_score, some away_score, some ht_home, some ht_away =>
      some {
        event_id := e.eventId.getD ""
        game_id := e.gameId.getD ""
        home_team := e.homeTeamName.getD ""
        away_team := e.awayTeamName.getD ""
        home_score := home_score
        away_score := away_score
        total_goals := home_score + away_score
        ht_home_score := ht_home
        ht_away_score := ht_away
        ht_total_goals := ht_home + ht_away
        start_time := e.estimateStartTime.getD 0
        match_status := e.matchStatus.getD "Unknown"
        league := standardize_league_name (e.categoryName.getD "Unknown")
        result := get_match_result home_score away_score
        -- integer form of the source's strict comparison against 2.5
        over_under_2_5 := if 5 < 2 * (home_score + away_score) then "Over" else "Under"
        both_teams_scored := if home_score > 0 ∧ away_score > 0 then "Yes" else "No" }
    | _, _, _, _ => none

/-! ## Helper lemmas about the normalizer. -/

/-- Discard characterization for `extract_match_info` in terms of the guarded
parses. -/
theorem extract_none_iff (e : Event) :
    extract_match_info e = none ↔
      (e.homeTeamName.getD "" = "" ∨ e.awayTeamName.getD "" = "" ∨
        e.setScore = none) ∨
      parsePart (pySplit (e.setScore.getD "0:0") ':') 0 = none ∨
      parsePart (pySplit (e.setScore.getD "0:0") ':') 1 = none ∨
      parsePart (pySplit ((e.gameScore.getD ["0:0"]).getD 0 "0:0") ':') 0 = none ∨
      parsePart (pySplit ((e.gameScore.getD ["0:0"]).getD 0 "0:0") ':') 1 = none := by
  unfold extract_match_info
  by_cases hg : e.homeTeamName.getD "" = "" ∨ e.awayTeamName.getD "" = "" ∨
      e.setScore = none
  · simp [hg]
  · rw [if_neg hg]
    cases h0 : parsePart (pySplit (e.setScore.getD "0:0") ':') 0 <;>
      cases h1 : parsePart (pySplit (e.setScore.getD "0:0") ':') 1 <;>
        cases h2 : parsePart (pySplit ((e.gameScore.getD ["0:0"]).getD 0 "0:0") ':') 0 <;>
          cases h3 : parsePart (pySplit ((e.gameScore.getD ["0:0"]).getD 0 "0:0") ':') 1 <;>
            simp [hg]

/-- The score fields of a non-discarded record are the guarded parses. -/
theorem extract_some_scores (e : Event) (r : MatchInfo)
    (h : extract_match_info e = some r) :
    parsePart (pySplit (e.setScore.getD "0:0") ':') 0 = some r.home_score ∧
    parsePart (pySplit (e.setScore.getD "0:0") ':') 1 = some r.away_score := by
  unfold extract_match_info at h
  by_cases hg : e.homeTeamName.getD "" = "" ∨ e.awayTeamName.getD "" = "" ∨
      e.setScore = none
  · rw [if_pos hg] at h
    exact absurd h (by simp)
  · rw [if_neg hg] at h
    cases h0 : parsePart (pySplit (e.setScore.getD "0:0") ':') 0 <;>
      cases h1 : parsePart (pySplit (e.setScore.getD "0:0") ':') 1 <;>
        cases h2 : parsePart (pySplit ((e.gameScore.getD ["0:0"]).getD 0 "0:0") ':') 0 <;>
          cases h3 : parsePart (pySplit ((e.gameScore.getD ["0:0"]).getD 0 "0:0") ':') 1 <;>
            rw [h0, h1, h2, h3] at h <;> simp at h <;> simp [← h]

/-! ## Claim C1. -/

/-- Spec-side predicate, from the claim's words: the score string splits into
exactly two base-10 integer parts. -/
def splitsIntoTwoIntParts (s : String) : Bool :=
  match pySplit s ':' with
  | [a, b] => (pyInt a).isSome && (pyInt b).isSome
  | _ => false

/-- A part list on which the source's guarded parse raises: at least two
parts, with one of the first two not an integer. -/
def badParts (l : List String) : Prop :=
  2 ≤ l.length ∧ (pyInt (l.getD 0 "") = none ∨ pyInt (l.getD 1 "") = none)

instance (l : List String) : Decidable (badParts l) := by
  unfold badParts
  infer_instance

/-- The condition under which `extract_match_info` actually discards a
record. -/
def discardCond (e : Event) : Prop :=
  e.homeTeamName.getD "" = "" ∨ e.awayTeamName.getD "" = "" ∨
  e.setScore = none ∨
  badParts (pySplit (e.setScore.getD "0:0") ':') ∨
  badParts (pySplit ((e.gameScore.getD ["0:0"]).getD 0 "0:0") ':')

instance (e : Event) : Decidable (discardCond e) := by
  unfold discardCond
  infer_instance

theorem badParts_iff (l : List String) :
    badParts l ↔ (parsePart l 0 = none ∨ parsePart l 1 = none) := by
  unfold badParts parsePart
  by_cases h : 2 ≤ l.length
  · simp [h]
  · simp [h]

/-- A raw event whose `setScore` is `"bad"`: a score string with no colon. -/
def evScoreBad : Event :=
  { eventId := some "e1", gameId := none, homeTeamName := some "ARS",
    awayTeamName := some "LEE", setScore := some "bad", gameScore := none,
    estimateStartTime := some 5, matchStatus := some "Finished",
    categoryName := some "england" }

/-- A raw event whose `setScore` is `"a:b"`: two parts, neither an integer. -/
def evScoreAB : Event :=
  { evScoreBad with setScore := some "a:b" }

/-- A raw event whose `setScore` is `"2:1"`. -/
def evScore21 : Event :=
  { evScoreBad with setScore := some "2:1", gameScore := some ["1:0"] }

/-- The record `extract_match_info` builds from `evScore21`. -/
def evScore21Res : MatchInfo :=
  { event_id := "e1", game_id := "", home_team := "ARS", away_team := "LEE",
    home_score := 2, away_score := 1, total_goals := 3, ht_home_score := 1,
    ht_away_score := 0, ht_total_goals := 1, start_time := 5,
    match_status := "Finished", league := "england virtual", result := "1",
    over_under_2_5 := "Over", both_teams_scored := "Yes" }

/-- Counterexample to claim C1 as stated: at the concrete event whose score
string is `"bad"`, the claimed equivalence "discarded exactly when the names
are empty, the score field is absent, or the score string does not split into
exactly two integer parts" is false — `"bad"` does not split into two integer
parts, yet the record is returned zero-filled (`home_score = away_score = 0`),
not discarded. -/
theorem C1_counterexample :
    ¬ ((extract_match_info evScoreBad = none) ↔
        (evScoreBad.homeTeamName.getD "" = "" ∨
         evScoreBad.awayTeamName.getD "" = "" ∨
         evScoreBad.setScore = none ∨
         splitsIntoTwoIntParts (evScoreBad.setScore.getD "0:0") = false)) := by
  decide

/-- Claim C1, amended to what the code does: a record is discarded exactly
when the home or away team name is empty or the `setScore` key is absent, or
the score string (or the half-time score string from `gameScore`) splits into
two or more parts whose first two do not both parse as base-10 integers.  A
score string with fewer than two parts (no colon, e.g. `"bad"`) is not
discarded: both scores silently default to `0`.  When the score string has at
least two parts, the record's scores are their parsed values (so `"2:1"`
yields `home_score = 2` and `away_score = 1`). -/
theorem C1_discard_characterization (e : Event) :
    (extract_match_info e = none ↔ discardCond e) ∧
    (∀ r : MatchInfo, extract_match_info e = some r →
      (2 ≤ (pySplit (e.setScore.getD "0:0") ':').length →
        pyInt ((pySplit (e.setScore.getD "0:0") ':').getD 0 "") =
          some r.home_score ∧
        pyInt ((pySplit (e.setScore.getD "0:0") ':').getD 1 "") =
          some r.away_score) ∧
      ((pySplit (e.setScore.getD "0:0") ':').length < 2 →
        r.home_score = 0 ∧ r.away_score = 0)) := by
  constructor
  · rw [extract_none_iff]
    unfold discardCond
    rw [badParts_iff, badParts_iff]
    tauto
  · intro r hr
    have hs := extract_some_scores e r hr
    constructor
    · intro hlen
      have h0 := hs.1
      have h1 := hs.2
      rw [parsePart, if_pos hlen] at h0 h1
      exact ⟨h0, h1⟩
    · intro hlen
      have h0 := hs.1
      have h1 := hs.2
      rw [parsePart, if_neg (by omega)] at h0 h1
      exact ⟨(Option.some.inj h0).symm, (Option.some.inj h1).symm⟩

/-- Witness for the amended C1 at concrete inputs: `"a:b"` (two non-integer
parts) is discarded, and `"2:1"` parses to scores `2` and `1`. -/
theorem C1_witness :
    extract_match_info evScoreAB = none ∧
    pyInt ((pySplit (evScore21.setScore.getD "0:0") ':').getD 0 "") =
      some evScore21Res.home_score ∧
    pyInt ((pySplit (evScore21.setScore.getD "0:0") ':').getD 1 "") =
      some evScore21Res.away_score ∧
    evScore21Res.home_score = 2 ∧ evScore21Res.away_score = 1 :=
  ⟨(C1_discard_characterization evScoreAB).1.mpr (by decide),
    (((C1_discard_characterization evScore21).2 evScore21Res (by decide)).1
      (by decide)).1,
    (((C1_discard_characterization evScore21).2 evScore21Res (by decide)).1
      (by decide)).2,
    rfl, rfl⟩

/-! ## League table generator (`LeagueTableGenerator`, `api_client.py`). -/

/-- One per-team stats dictionary of `self.team_stats`.  The Python dict has
no `position` key until `generate_table` assigns one; that pre-assignment
absence is modelled as `0`. -/
structure TeamStats where
  team_name : String
  matches_played : Nat
  wins : Nat
  draws : Nat
  losses : Nat
  goals_for : Int
  goals_against : Int
  goal_difference : Int
  points : Nat
  home_matches : Nat
  away_matches : Nat
  last_5_results : List String
  position : Nat
deriving DecidableEq

/-- `self.team_stats`: a Python dict in insertion order, embedded as an
association list whose keys are unique by construction. -/
abbrev TableState := List (String × TeamStats)

/-- The freshly initialized stats dictionary of `add_match`. -/
def freshStats (team : String) : TeamStats :=
  { team_name := team, matches_played := 0, wins := 0, draws := 0,
    losses := 0, goals_for := 0, goals_against := 0, goal_difference := 0,
    points := 0, home_matches := 0, away_matches := 0, last_5_results := [],
    position := 0 }

/-- Dictionary lookup `self.team_stats[t]` (first entry with the key). -/
def getStats (t : String) (st : TableState) : Option TeamStats :=
  (st.find? (fun p => p.1 == t)).map (fun p => p.2)

/-- The team's entry, or a fresh one when the team has not been seen. -/
def statsOrFresh (t : String) (st : TableState) : TeamStats :=
  (getStats t st).getD (freshStats t)

/-- `if team not in self.team_stats: self.team_stats[team] = {...}`. -/
def initTeam (t : String) (st : TableState) : TableState :=
  if (st.find? (fun p => p.1 == t)).isSome then st
  else st ++ [(t, freshStats t)]

/-- In-place mutation of the team's dict entry. -/
def updateTeam (t : String) (f : TeamStats → TeamStats) (st : TableState) :
    TableState :=
  st.map (fun p => if p.1 == t then (p.1, f p.2) else p)

/-- Python `l[-5:]`: the last `n` elements. -/
def lastN (n : Nat) (l : List α) : List α :=
  ((l.reverse.take n).reverse)

/-- The `if len(...) > 5: ... = ...[-5:]` truncation of `add_match`. -/
def truncate5 (s : TeamStats) : TeamStats :=
  if 5 < s.last_5_results.length then
    { s with last_5_results := lastN 5 s.last_5_results }
  else s

/-- The home team's role-independent counter updates of `add_match`
(`matches_played`, `home_matches`, goals). -/
def homePreUpd (home_score away_score : Int) (s : TeamStats) : TeamStats :=
  { s with matches_played := s.matches_played + 1,
           home_matches := s.home_matches + 1,
           goals_for := s.goals_for + home_score,
           goals_against := s.goals_against + away_score }

/-- The away team's role-independent counter updates of `add_match`. -/
def awayPreUpd (home_score away_score : Int) (s : TeamStats) : TeamStats :=
  { s with matches_played := s.matches_played + 1,
           away_matches := s.away_matches + 1,
           goals_for := s.goals_for + away_score,
           goals_against := s.goals_against + home_score }

/-- Winner's outcome update: a win, three points, a `W` code appended. -/
def winUpd (s : TeamStats) : TeamStats :=
  { s with wins := s.wins + 1, points := s.points + 3,
           last_5_results := s.last_5_results ++ ["W"] }

/-- Loser's outcome update: a loss, an `L` code appended. -/
def lossUpd (s : TeamStats) : TeamStats :=
  { s with losses := s.losses + 1,
           last_5_results := s.last_5_results ++ ["L"] }

/-- Draw outcome update: a draw, one point, a `D` code appended. -/
def drawUpd (s : TeamStats) : TeamStats :=
  { s with draws := s.draws + 1, points := s.points + 1,
           last_5_results := s.last_5_results ++ ["D"] }

/-- The body of `add_match` once the four fields have been read: initialize
both teams if absent, update the shared counters, apply the outcome branch,
truncate `last_5_results`.  The grouped per-team record updates apply the
same field mutations in the source's per-team order. -/
def processMatch (home_team away_team : String) (home_score away_score : Int)
    (st : TableState) : TableState :=
  let st := initTeam home_team st
  let st := initTeam away_team st
  let st := updateTeam home_team (homePreUpd home_score away_score) st
  let st := updateTeam away_team (awayPreUpd home_score away_score) st
  let st :=
    if home_score > away_score then
      updateTeam away_team lossUpd (updateTeam home_team winUpd st)
    else if away_score > home_score then
      updateTeam away_team winUpd (updateTeam home_team lossUpd st)
    else
      updateTeam away_team drawUpd (updateTeam home_team drawUpd st)
  updateTeam away_team truncate5 (updateTeam home_team truncate5 st)

/-- A raw match dictionary as passed to `add_match`; `none` = missing key.
The scores are typed because the saved pipeline rows carry integers there. -/
structure RawMatch where
  event_id : Option String
  home_team : Option String
  away_team : Option String
  home_score : Option Int
  away_score : Option Int
deriving DecidableEq

/-- `LeagueTableGenerator.add_match`: the bare `match['...']` subscripts
raise `KeyError` on a missing key (modelled as `Except.error`); an empty
(but present) team name is logged and skipped. -/
def add_match (m : RawMatch) (st : TableState) : Except String TableState :=
  match m.home_team with
  | none => .error "KeyError: home_team"
  | some home_team =>
    match m.away_team with
    | none => .error "KeyError: away_team"
    | some away_team =>
      if home_team = "" ∨ away_team = "" then .ok st
      else
        match m.home_score with
        | none => .error "KeyError: home_score"
        | some home_score =>
          match m.away_score with
          | none => .error "KeyError: away_score"
          | some away_score =>
            .ok (processMatch home_team away_team home_score away_score st)

/-- Feeding a batch of matches through `add_match` in order; the first
uncaught exception aborts the batch. -/
def add_matches : List RawMatch → TableState → Except String TableState
  | [], st => .ok st
  | m :: ms, st =>
    match add_match m st with
    | .ok st2 => add_matches ms st2
    | .error err => .error err

/-! ## Claim C4. -/

/-- Whether a call completed without an uncaught exception. -/
def isOkE (e : Except String TableState) : Bool :=
  match e with
  | .ok _ => true
  | .error _ => false

/-- The exact condition under which `add_match` raises: a missing team-name
key, or both names present and nonempty but a missing score key (an empty
present name skips the record before the scores are read). -/
def errorCond (m : RawMatch) : Prop :=
  m.home_team = none ∨ m.away_team = none ∨
  (m.home_team.getD "" ≠ "" ∧ m.away_team.getD "" ≠ "" ∧
    (m.home_score = none ∨ m.away_score = none))

/-- A raw match dictionary with `home_score` missing. -/
def rawMissingScore : RawMatch :=
  { event_id := some "e9", home_team := some "ARS", away_team := some "LEE",
    home_score := none, away_score := some 1 }

/-- Counterexample to claim C4 as stated: `add_match` does raise an uncaught
`KeyError` to its caller on a concrete record that merely lacks the
`home_score` key (the claim says no exception ever escapes, for every input
record including incomplete ones). -/
theorem C4_counterexample :
    add_match rawMissingScore [] = Except.error "KeyError: home_score" := by
  rfl

/-- Claim C4, amended to what the code does: `add_match` raises exactly when
the `home_team` or `away_team` key is missing, or both names are present and
nonempty but the `home_score` or `away_score` key is missing; for every
record carrying all four keys (and for records whose present team name is
empty, which are skipped), no exception escapes and the batch continues. -/
theorem C4_add_match_error_characterization (m : RawMatch) (st : TableState) :
    isOkE (add_match m st) = false ↔ errorCond m := by
  obtain ⟨eid, hteam, ateam, hsc, asc⟩ := m
  cases hteam with
  | none => simp [add_match, errorCond, isOkE]
  | some h =>
    cases ateam with
    | none => simp [add_match, errorCond, isOkE]
    | some a =>
      by_cases he : h = "" ∨ a = ""
      · simp only [add_match, errorCond, isOkE, if_pos he]
        simp
        tauto
      · cases hsc <;> cases asc <;>
          simp only [add_match, errorCond, isOkE, if_neg he] <;> simp <;>
            tauto

/-! ## Counting machinery for the accumulator invariants. -/

/-- Number of entries carrying a given key. -/
def keyOcc (t : String) (st : TableState) : Nat :=
  st.countP (fun p => p.1 == t)

/-- Sum of a numeric stat over all entries. -/
def sumBy (g : TeamStats → Nat) (st : TableState) : Nat :=
  (st.map (fun p => g p.2)).sum

def sumWins (st : TableState) : Nat := sumBy (fun s => s.wins) st

def sumLosses (st : TableState) : Nat := sumBy (fun s => s.losses) st

def sumDraws (st : TableState) : Nat := sumBy (fun s => s.draws) st

def sumPoints (st : TableState) : Nat := sumBy (fun s => s.points) st

/-- The keys of the accumulator are pairwise distinct (each occurs at most
once). -/
def OccInv (st : TableState) : Prop := ∀ u : String, keyOcc u st ≤ 1

theorem keyOcc_updateTeam (t u : String) (f : TeamStats → TeamStats)
    (st : TableState) : keyOcc t (updateTeam u f st) = keyOcc t st := by
  induction st with
  | nil => rfl
  | cons p l ih =>
    unfold keyOcc updateTeam at *
    rw [List.map_cons, List.countP_cons, List.countP_cons, ih]
    by_cases h : p.1 == u <;> simp [h]

theorem sumBy_updateTeam (g : TeamStats → Nat) (u : String)
    (f : TeamStats → TeamStats) (d : Nat) (h : ∀ s, g (f s) = g s + d)
    (st : TableState) :
    sumBy g (updateTeam u f st) = sumBy g st + d * keyOcc u st := by
  induction st with
  | nil => rfl
  | cons p l ih =>
    unfold sumBy keyOcc updateTeam at *
    simp only [List.map_cons, List.sum_cons, List.countP_cons]
    rw [ih]
    by_cases hc : p.1 == u
    · simp [hc, h p.2] <;> ring
    · simp [hc] <;> ring

theorem sumBy_initTeam (g : TeamStats → Nat) (t : String)
    (h : g (freshStats t) = 0) (st : TableState) :
    sumBy g (initTeam t st) = sumBy g st := by
  unfold initTeam
  by_cases hf : (st.find? (fun p => p.1 == t)).isSome
  · simp [hf]
  · simp [hf, sumBy, h]

theorem keyOcc_initTeam_self (t : String) (st : TableState) :
    1 ≤ keyOcc t (initTeam t st) := by
  unfold initTeam
  cases hf : st.find? (fun p => p.1 == t) with
  | some p =>
    simp only [hf, Option.isSome_some, if_pos]
    have hmem := List.mem_of_find?_eq_some hf
    have hpred := List.find?_some hf
    unfold keyOcc
    exact List.countP_pos_iff.mpr ⟨p, hmem, hpred⟩
  | none =>
    simp only [hf, Option.isSome_none, Bool.false_eq_true, if_false]
    unfold keyOcc
    rw [List.countP_append]
    simp

theorem keyOcc_initTeam_le (t u : String) (st : TableState)
    (h : keyOcc u st ≤ 1) : keyOcc u (initTeam t st) ≤ 1 := by
  unfold initTeam
  cases hf : st.find? (fun p => p.1 == t) with
  | some p => simpa [hf] using h
  | none =>
    simp only [hf, Option.isSome_none, Bool.false_eq_true, if_false]
    unfold keyOcc at *
    rw [List.countP_append]
    by_cases hu : u = t
    · subst hu
      have hz : st.countP (fun p => p.1 == u) = 0 := by
        rw [List.countP_eq_zero]
        intro p hp
        have := List.find?_eq_none.mp hf p hp
        simpa using this
      simp [hz]
    · have : ((fun p => p.1 == u) ((t, freshStats t))) = false := by
        simp
        intro hc
        exact hu hc.symm
      simp [this, h]

theorem keyOcc_initTeam_mono (t u : String) (st : TableState) :
    keyOcc u st ≤ keyOcc u (initTeam t st) := by
  unfold initTeam
  cases hf : st.find? (fun p => p.1 == t) with
  | some p => simp [hf]
  | none =>
    simp only [hf, Option.isSome_none, Bool.false_eq_true, if_false]
    unfold keyOcc
    rw [List.countP_append]
    omega

theorem occInv_initTeam (t : String) (st : TableState) (h : OccInv st) :
    OccInv (initTeam t st) :=
  fun u => keyOcc_initTeam_le t u st (h u)

theorem occInv_updateTeam (u : String) (f : TeamStats → TeamStats)
    (st : TableState) (h : OccInv st) : OccInv (updateTeam u f st) := by
  intro v
  rw [keyOcc_updateTeam]
  exact h v

/-! ## Lookup lemmas for the dictionary operations. -/

theorem find?_key_cons_of_pos (t : String) (q : String × TeamStats)
    (l : TableState) (h : (q.1 == t) = true) :
    List.find? (fun r => r.1 == t) (q :: l) = some q :=
  @List.find?_cons_of_pos _ (fun r => r.1 == t) q l h

theorem find?_key_cons_of_neg (t : String) (q : String × TeamStats)
    (l : TableState) (h : ¬ (q.1 == t) = true) :
    List.find? (fun r => r.1 == t) (q :: l) =
      List.find? (fun r => r.1 == t) l :=
  @List.find?_cons_of_neg _ (fun r => r.1 == t) q l h

theorem getStats_updateTeam_self (t : String) (f : TeamStats → TeamStats)
    (st : TableState) :
    getStats t (updateTeam t f st) = (getStats t st).map f := by
  induction st with
  | nil => rfl
  | cons p l ih =>
    unfold getStats updateTeam at *
    rw [List.map_cons]
    by_cases hc : p.1 == t
    · have h1 : ((if (p.1 == t) = true then (p.1, f p.2) else p).1 == t)
          = true := by rw [if_pos hc]; exact hc
      rw [find?_key_cons_of_pos t _ _ h1, find?_key_cons_of_pos t _ _ hc,
        if_pos hc]
      rfl
    · have h1 : ¬ ((if (p.1 == t) = true then (p.1, f p.2) else p).1 == t)
          = true := by rw [if_neg hc]; exact hc
      rw [find?_key_cons_of_neg t _ _ h1, find?_key_cons_of_neg t _ _ hc]
      exact ih

theorem getStats_updateTeam_other (t u : String) (h : t ≠ u)
    (f : TeamStats → TeamStats) (st : TableState) :
    getStats t (updateTeam u f st) = getStats t st := by
  induction st with
  | nil => rfl
  | cons p l ih =>
    unfold getStats updateTeam at *
    rw [List.map_cons]
    by_cases hck : p.1 == t
    · have hcu : ¬ (p.1 == u) = true := by
        simp only [beq_iff_eq] at hck ⊢
        rw [hck]
        exact fun hh => h hh
      have h1 : ((if (p.1 == u) = true then (p.1, f p.2) else p).1 == t)
          = true := by rw [if_neg hcu]; exact hck
      rw [find?_key_cons_of_pos t _ _ h1, find?_key_cons_of_pos t _ _ hck,
        if_neg hcu]
    · have h1 : ¬ ((if (p.1 == u) = true then (p.1, f p.2) else p).1 == t)
          = true := by
        by_cases hc : p.1 == u
        · rw [if_pos hc]; exact hck
        · rw [if_neg hc]; exact hck
      rw [find?_key_cons_of_neg t _ _ h1, find?_key_cons_of_neg t _ _ hck]
      exact ih

theorem getStats_initTeam_self (t : String) (st : TableState) :
    getStats t (initTeam t st) = some (statsOrFresh t st) := by
  unfold initTeam statsOrFresh
  cases hf : st.find? (fun p => p.1 == t) with
  | some p => simp [hf, getStats]
  | none =>
    simp only [hf, Option.isSome_none, Bool.false_eq_true, if_false]
    unfold getStats
    rw [List.find?_append, hf]
    simp [hf]

theorem getStats_initTeam_other (t u : String) (h : t ≠ u) (st : TableState) :
    getStats t (initTeam u st) = getStats t st := by
  unfold initTeam
  cases hf : st.find? (fun p => p.1 == u) with
  | some p => simp [hf]
  | none =>
    simp only [hf, Option.isSome_none, Bool.false_eq_true, if_false]
    unfold getStats
    rw [List.find?_append]
    have : ([(u, freshStats u)].find? (fun p => p.1 == t)) = none := by
      simp
      exact fun hh => h hh.symm
    rw [this]
    simp

theorem statsOrFresh_initTeam_self (t : String) (st : TableState) :
    statsOrFresh t (initTeam t st) = statsOrFresh t st := by
  unfold statsOrFresh
  rw [getStats_initTeam_self]
  rfl

/-! ## Per-match accounting. -/

theorem sumBy_updateTeam_zero (g : TeamStats → Nat) (u : String)
    (f : TeamStats → TeamStats) (h : ∀ s, g (f s) = g s) (st : TableState) :
    sumBy g (updateTeam u f st) = sumBy g st := by
  have := sumBy_updateTeam g u f 0 (by simpa using h) st
  simpa using this

theorem occInv_processMatch (home away : String) (hs as2 : Int)
    (st : TableState) (h : OccInv st) :
    OccInv (processMatch home away hs as2 st) := by
  unfold processMatch
  have h1 := occInv_initTeam home st h
  have h2 := occInv_initTeam away _ h1
  have h3 := occInv_updateTeam home (homePreUpd hs as2) _ h2
  have h4 := occInv_updateTeam away (awayPreUpd hs as2) _ h3
  by_cases hc1 : hs > as2
  · simp only [if_pos hc1]
    exact occInv_updateTeam _ _ _ (occInv_updateTeam _ _ _
      (occInv_updateTeam _ _ _ (occInv_updateTeam _ _ _ h4)))
  · by_cases hc2 : as2 > hs
    · simp only [if_neg hc1, if_pos hc2]
      exact occInv_updateTeam _ _ _ (occInv_updateTeam _ _ _
        (occInv_updateTeam _ _ _ (occInv_updateTeam _ _ _ h4)))
    · simp only [if_neg hc1, if_neg hc2]
      exact occInv_updateTeam _ _ _ (occInv_updateTeam _ _ _
        (occInv_updateTeam _ _ _ (occInv_updateTeam _ _ _ h4)))

/-- Generic bookkeeping for one processed match: a stat `g` that ignores the
shared counter updates and the truncation, and changes by `dw` / `dl` / `dd`
under the win / loss / draw updates, changes in total by the paired outcome
delta. -/
theorem sumBy_processMatch (g : TeamStats → Nat) (home away : String)
    (hs as2 : Int) (st : TableState) (dw dl dd : Nat)
    (hfresh : ∀ t, g (freshStats t) = 0)
    (hpreH : ∀ s, g (homePreUpd hs as2 s) = g s)
    (hpreA : ∀ s, g (awayPreUpd hs as2 s) = g s)
    (hw : ∀ s, g (winUpd s) = g s + dw)
    (hl : ∀ s, g (lossUpd s) = g s + dl)
    (hd : ∀ s, g (drawUpd s) = g s + dd)
    (ht : ∀ s, g (truncate5 s) = g s)
    (hInv : OccInv st) :
    sumBy g (processMatch home away hs as2 st) =
      sumBy g st + (if hs = as2 then dd + dd else dw + dl) := by
  unfold processMatch
  have hInv1 := occInv_initTeam home st hInv
  have hInv2 := occInv_initTeam away _ hInv1
  have hoccH : keyOcc home (initTeam away (initTeam home st)) = 1 := by
    have ha := keyOcc_initTeam_self home st
    have hb := keyOcc_initTeam_mono away home (initTeam home st)
    have hc := hInv2 home
    omega
  have hoccA : keyOcc away (initTeam away (initTeam home st)) = 1 := by
    have ha := keyOcc_initTeam_self away (initTeam home st)
    have hc := hInv2 away
    omega
  have hbase : sumBy g (initTeam away (initTeam home st)) = sumBy g st := by
    rw [sumBy_initTeam g away (hfresh away), sumBy_initTeam g home (hfresh home)]
  have hpre : sumBy g (updateTeam away (awayPreUpd hs as2)
      (updateTeam home (homePreUpd hs as2) (initTeam away (initTeam home st))))
      = sumBy g st := by
    rw [sumBy_updateTeam_zero g away _ hpreA,
      sumBy_updateTeam_zero g home _ hpreH, hbase]
  rw [sumBy_updateTeam_zero g away truncate5 ht,
    sumBy_updateTeam_zero g home truncate5 ht]
  by_cases hc1 : hs > as2
  · rw [if_pos hc1, if_neg (by omega : ¬ hs = as2)]
    rw [sumBy_updateTeam g away lossUpd dl hl,
      sumBy_updateTeam g home winUpd dw hw]
    simp only [keyOcc_updateTeam]
    rw [hoccA, hoccH, hpre]
    ring
  · by_cases hc2 : as2 > hs
    · rw [if_neg hc1, if_pos hc2, if_neg (by omega : ¬ hs = as2)]
      rw [sumBy_updateTeam g away winUpd dw hw,
        sumBy_updateTeam g home lossUpd dl hl]
      simp only [keyOcc_updateTeam]
      rw [hoccA, hoccH, hpre]
      ring
    · rw [if_neg hc1, if_neg hc2, if_pos (by omega : hs = as2)]
      rw [sumBy_updateTeam g away drawUpd dd hd,
        sumBy_updateTeam g home drawUpd dd hd]
      simp only [keyOcc_updateTeam]
      rw [hoccA, hoccH, hpre]
      ring

theorem truncate5_keeps (s : TeamStats) :
    (truncate5 s).wins = s.wins ∧ (truncate5 s).draws = s.draws ∧
    (truncate5 s).losses = s.losses ∧ (truncate5 s).points = s.points ∧
    (truncate5 s).matches_played = s.matches_played := by
  unfold truncate5
  split <;> exact ⟨rfl, rfl, rfl, rfl, rfl⟩

theorem sumWins_processMatch (home away : String) (hs as2 : Int)
    (st : TableState) (hInv : OccInv st) :
    sumWins (processMatch home away hs as2 st) =
      sumWins st + (if hs = as2 then 0 else 1) := by
  have h := sumBy_processMatch (fun s => s.wins) home away hs as2 st 1 0 0
    (fun _ => rfl) (fun _ => rfl) (fun _ => rfl) (fun _ => rfl) (fun _ => rfl)
    (fun _ => rfl) (fun s => (truncate5_keeps s).1) hInv
  unfold sumWins
  rw [h]

theorem sumLosses_processMatch (home away : String) (hs as2 : Int)
    (st : TableState) (hInv : OccInv st) :
    sumLosses (processMatch home away hs as2 st) =
      sumLosses st + (if hs = as2 then 0 else 1) := by
  have h := sumBy_processMatch (fun s => s.losses) home away hs as2 st 0 1 0
    (fun _ => rfl) (fun _ => rfl) (fun _ => rfl) (fun _ => rfl) (fun _ => rfl)
    (fun _ => rfl) (fun s => (truncate5_keeps s).2.2.1) hInv
  unfold sumLosses
  rw [h]

theorem sumDraws_processMatch (home away : String) (hs as2 : Int)
    (st : TableState) (hInv : OccInv st) :
    sumDraws (processMatch home away hs as2 st) =
      sumDraws st + (if hs = as2 then 2 else 0) := by
  have h := sumBy_processMatch (fun s => s.draws) home away hs as2 st 0 0 1
    (fun _ => rfl) (fun _ => rfl) (fun _ => rfl) (fun _ => rfl) (fun _ => rfl)
    (fun _ => rfl) (fun s => (truncate5_keeps s).2.1) hInv
  unfold sumDraws
  rw [h]

theorem sumPoints_processMatch (home away : String) (hs as2 : Int)
    (st : TableState) (hInv : OccInv st) :
    sumPoints (processMatch home away hs as2 st) =
      sumPoints st + (if hs = as2 then 2 else 3) := by
  have h := sumBy_processMatch (fun s => s.points) home away hs as2 st 3 0 1
    (fun _ => rfl) (fun _ => rfl) (fun _ => rfl) (fun _ => rfl) (fun _ => rfl)
    (fun _ => rfl) (fun s => (truncate5_keeps s).2.2.2.1) hInv
  unfold sumPoints
  rw [h]

/-! ## Valid records and outcome counts over a batch. -/

/-- A match record is valid when all four fields are present, both team
names are nonempty and the two teams are distinct (a match has two distinct
participants). -/
def validRaw (m : RawMatch) : Bool :=
  m.home_team.isSome && m.away_team.isSome && m.home_score.isSome &&
  m.away_score.isSome && !(m.home_team == some "") &&
  !(m.away_team == some "") && !(m.home_team == m.away_team)

/-- A decisive (non-draw) record. -/
def decisiveRaw (m : RawMatch) : Bool :=
  match m.home_score, m.away_score with
  | some h, some a => decide (h ≠ a)
  | _, _ => false

/-- A drawn record. -/
def drawRaw (m : RawMatch) : Bool :=
  match m.home_score, m.away_score with
  | some h, some a => decide (h = a)
  | _, _ => false

def decCount (ms : List RawMatch) : Nat := ms.countP decisiveRaw

def drawCount (ms : List RawMatch) : Nat := ms.countP drawRaw

theorem add_match_valid (m : RawMatch) (st : TableState)
    (hv : validRaw m = true) :
    add_match m st = .ok (processMatch (m.home_team.getD "")
      (m.away_team.getD "") (m.home_score.getD 0) (m.away_score.getD 0) st) := by
  obtain ⟨eid, ht2, at2, hs2, as3⟩ := m
  cases ht2 with
  | none => simp [validRaw] at hv
  | some h =>
    cases at2 with
    | none => simp [validRaw] at hv
    | some a =>
      cases hs2 with
      | none => simp [validRaw] at hv
      | some hs0 =>
        cases as3 with
        | none => simp [validRaw] at hv
        | some as0 =>
          have hguard : ¬ (h = "" ∨ a = "") := by
            simp [validRaw] at hv
            tauto
          simp [add_match, hguard]

theorem counts_cons_valid (m : RawMatch) (ms : List RawMatch)
    (hv : validRaw m = true) :
    decCount (m :: ms) = decCount ms +
      (if m.home_score.getD 0 = m.away_score.getD 0 then 0 else 1) ∧
    drawCount (m :: ms) = drawCount ms +
      (if m.home_score.getD 0 = m.away_score.getD 0 then 1 else 0) := by
  obtain ⟨eid, ht2, at2, hs2, as3⟩ := m
  cases hs2 with
  | none => simp [validRaw] at hv
  | some hs0 =>
    cases as3 with
    | none => simp [validRaw] at hv
    | some as0 =>
      unfold decCount drawCount
      rw [List.countP_cons, List.countP_cons]
      by_cases hc : hs0 = as0 <;> simp [decisiveRaw, drawRaw, hc]

theorem add_matches_ok_sums :
    ∀ (ms : List RawMatch) (st : TableState), OccInv st →
    (∀ m ∈ ms, validRaw m = true) →
    ∃ st2, add_matches ms st = .ok st2 ∧ OccInv st2 ∧
      sumWins st2 = sumWins st + decCount ms ∧
      sumLosses st2 = sumLosses st + decCount ms ∧
      sumDraws st2 = sumDraws st + 2 * drawCount ms ∧
      sumPoints st2 = sumPoints st + 3 * decCount ms + 2 * drawCount ms := by
  intro ms
  induction ms with
  | nil =>
    intro st hInv _
    exact ⟨st, rfl, hInv, by simp [decCount], by simp [decCount],
      by simp [drawCount], by simp [decCount, drawCount]⟩
  | cons m ms ih =>
    intro st hInv hval
    have hvm := hval m (List.mem_cons_self m ms)
    have hproc := occInv_processMatch (m.home_team.getD "")
      (m.away_team.getD "") (m.home_score.getD 0) (m.away_score.getD 0) st hInv
    obtain ⟨st2, hok, hInv2, hw2, hl2, hd2, hp2⟩ :=
      ih (processMatch (m.home_team.getD "") (m.away_team.getD "")
        (m.home_score.getD 0) (m.away_score.getD 0) st) hproc
        (fun m2 hm2 => hval m2 (List.mem_cons_of_mem _ hm2))
    refine ⟨st2, ?_, hInv2, ?_, ?_, ?_, ?_⟩
    · unfold add_matches
      rw [add_match_valid m st hvm]
      exact hok
    · rw [hw2, sumWins_processMatch _ _ _ _ _ hInv,
        (counts_cons_valid m ms hvm).1]
      by_cases hc : m.home_score.getD 0 = m.away_score.getD 0 <;>
        simp [hc] <;> omega
    · rw [hl2, sumLosses_processMatch _ _ _ _ _ hInv,
        (counts_cons_valid m ms hvm).1]
      by_cases hc : m.home_score.getD 0 = m.away_score.getD 0 <;>
        simp [hc] <;> omega
    · rw [hd2, sumDraws_processMatch _ _ _ _ _ hInv,
        (counts_cons_valid m ms hvm).2]
      by_cases hc : m.home_score.getD 0 = m.away_score.getD 0 <;>
        simp [hc] <;> omega
    · rw [hp2, sumPoints_processMatch _ _ _ _ _ hInv,
        (counts_cons_valid m ms hvm).1, (counts_cons_valid m ms hvm).2]
      by_cases hc : m.home_score.getD 0 = m.away_score.getD 0 <;>
        simp [hc] <;> omega

/-! ## Per-team outcome pairing. -/

theorem statsOrFresh_processMatch_home (home away : String)
    (hne : home ≠ away) (hs as2 : Int) (st : TableState) :
    statsOrFresh home (processMatch home away hs as2 st) =
      truncate5 ((if hs > as2 then winUpd
        else if as2 > hs then lossUpd else drawUpd)
        (homePreUpd hs as2 (statsOrFresh home st))) := by
  unfold processMatch
  unfold statsOrFresh
  rw [getStats_updateTeam_other home away hne, getStats_updateTeam_self]
  by_cases hc1 : hs > as2
  · rw [if_pos hc1, if_pos hc1]
    rw [getStats_updateTeam_other home away hne, getStats_updateTeam_self,
      getStats_updateTeam_other home away hne, getStats_updateTeam_self,
      getStats_initTeam_other home away hne, getStats_initTeam_self]
    rfl
  · by_cases hc2 : as2 > hs
    · rw [if_neg hc1, if_pos hc2, if_neg hc1, if_pos hc2]
      rw [getStats_updateTeam_other home away hne, getStats_updateTeam_self,
        getStats_updateTeam_other home away hne, getStats_updateTeam_self,
        getStats_initTeam_other home away hne, getStats_initTeam_self]
      rfl
    · rw [if_neg hc1, if_neg hc2, if_neg hc1, if_neg hc2]
      rw [getStats_updateTeam_other home away hne, getStats_updateTeam_self,
        getStats_updateTeam_other home away hne, getStats_updateTeam_self,
        getStats_initTeam_other home away hne, getStats_initTeam_self]
      rfl

theorem statsOrFresh_processMatch_away (home away : String)
    (hne : home ≠ away) (hs as2 : Int) (st : TableState) :
    statsOrFresh away (processMatch home away hs as2 st) =
      truncate5 ((if hs > as2 then lossUpd
        else if as2 > hs then winUpd else drawUpd)
        (awayPreUpd hs as2 (statsOrFresh away st))) := by
  have hne2 : away ≠ home := fun hh => hne hh.symm
  unfold processMatch
  unfold statsOrFresh
  rw [getStats_updateTeam_self, getStats_updateTeam_other away home hne2]
  by_cases hc1 : hs > as2
  · rw [if_pos hc1, if_pos hc1]
    rw [getStats_updateTeam_self, getStats_updateTeam_other away home hne2,
      getStats_updateTeam_self, getStats_updateTeam_other away home hne2,
      getStats_initTeam_self]
    unfold statsOrFresh
    rw [getStats_initTeam_other away home hne2]
    rfl
  · by_cases hc2 : as2 > hs
    · rw [if_neg hc1, if_pos hc2, if_neg hc1, if_pos hc2]
      rw [getStats_updateTeam_self, getStats_updateTeam_other away home hne2,
        getStats_updateTeam_self, getStats_updateTeam_other away home hne2,
        getStats_initTeam_self]
      unfold statsOrFresh
      rw [getStats_initTeam_other away home hne2]
      rfl
    · rw [if_neg hc1, if_neg hc2, if_neg hc1, if_neg hc2]
      rw [getStats_updateTeam_self, getStats_updateTeam_other away home hne2,
        getStats_updateTeam_self, getStats_updateTeam_other away home hne2,
        getStats_initTeam_self]
      unfold statsOrFresh
      rw [getStats_initTeam_other away home hne2]
      rfl

@[simp] theorem truncate5_wins (s : TeamStats) :
    (truncate5 s).wins = s.wins := (truncate5_keeps s).1

@[simp] theorem truncate5_draws (s : TeamStats) :
    (truncate5 s).draws = s.draws := (truncate5_keeps s).2.1

@[simp] theorem truncate5_losses (s : TeamStats) :
    (truncate5 s).losses = s.losses := (truncate5_keeps s).2.2.1

@[simp] theorem truncate5_points (s : TeamStats) :
    (truncate5 s).points = s.points := (truncate5_keeps s).2.2.2.1

@[simp] theorem truncate5_matches_played (s : TeamStats) :
    (truncate5 s).matches_played = s.matches_played :=
  (truncate5_keeps s).2.2.2.2

theorem validRaw_ne (m : RawMatch) (hv : validRaw m = true) :
    m.home_team.getD "" ≠ m.away_team.getD "" := by
  obtain ⟨eid, ht2, at2, hs2, as3⟩ := m
  cases ht2 <;> cases at2 <;> simp [validRaw] at hv ⊢ <;> tauto

/-- Claim C2: (i) over any batch of valid match records fed from a fresh
accumulator, the totals satisfy `sum(wins) = sum(losses)` and
`sum(points) = 3*decisive + 2*draws`; (ii) a valid record (all four fields
present, nonempty distinct team names) is processed, not skipped; (iii) per
processed match, exactly one of (wins, draws, losses) increments for each
participating team, consistently paired: a decisive match gives the winner a
win (+3 points) and the loser a loss, a draw gives both teams a draw
(+1 point each). -/
theorem C2_outcome_pairing_and_sums :
    (∀ ms : List RawMatch, (∀ m ∈ ms, validRaw m = true) →
      ∃ st, add_matches ms [] = Except.ok st ∧
        sumWins st = sumLosses st ∧
        sumPoints st = 3 * decCount ms + 2 * drawCount ms) ∧
    (∀ (m : RawMatch) (st : TableState), validRaw m = true →
      add_match m st = Except.ok (processMatch (m.home_team.getD "")
        (m.away_team.getD "") (m.home_score.getD 0) (m.away_score.getD 0) st) ∧
      m.home_team.getD "" ≠ m.away_team.getD "") ∧
    (∀ (home away : String) (hs as2 : Int) (st : TableState), home ≠ away →
      (statsOrFresh home (processMatch home away hs as2 st)).matches_played =
        (statsOrFresh home st).matches_played + 1 ∧
      (statsOrFresh away (processMatch home away hs as2 st)).matches_played =
        (statsOrFresh away st).matches_played + 1 ∧
      (hs > as2 →
        (statsOrFresh home (processMatch home away hs as2 st)).wins =
          (statsOrFresh home st).wins + 1 ∧
        (statsOrFresh home (processMatch home away hs as2 st)).draws =
          (statsOrFresh home st).draws ∧
        (statsOrFresh home (processMatch home away hs as2 st)).losses =
          (statsOrFresh home st).losses ∧
        (statsOrFresh home (processMatch home away hs as2 st)).points =
          (statsOrFresh home st).points + 3 ∧
        (statsOrFresh away (processMatch home away hs as2 st)).losses =
          (statsOrFresh away st).losses + 1 ∧
        (statsOrFresh away (processMatch home away hs as2 st)).wins =
          (statsOrFresh away st).wins ∧
        (statsOrFresh away (processMatch home away hs as2 st)).draws =
          (statsOrFresh away st).draws ∧
        (statsOrFresh away (processMatch home away hs as2 st)).points =
          (statsOrFresh away st).points) ∧
      (as2 > hs →
        (statsOrFresh away (processMatch home away hs as2 st)).wins =
          (statsOrFresh away st).wins + 1 ∧
        (statsOrFresh away (processMatch home away hs as2 st)).draws =
          (statsOrFresh away st).draws ∧
        (statsOrFresh away (processMatch home away hs as2 st)).losses =
          (statsOrFresh away st).losses ∧
        (statsOrFresh away (processMatch home away hs as2 st)).points =
          (statsOrFresh away st).points + 3 ∧
        (statsOrFresh home (processMatch home away hs as2 st)).losses =
          (statsOrFresh home st).losses + 1 ∧
        (statsOrFresh home (processMatch home away hs as2 st)).wins =
          (statsOrFresh home st).wins ∧
        (statsOrFresh home (processMatch home away hs as2 st)).draws =
          (statsOrFresh home st).draws ∧
        (statsOrFresh home (processMatch home away hs as2 st)).points =
          (statsOrFresh home st).points) ∧
      (hs = as2 →
        (statsOrFresh home (processMatch home away hs as2 st)).draws =
          (statsOrFresh home st).draws + 1 ∧
        (statsOrFresh home (processMatch home away hs as2 st)).wins =
          (statsOrFresh home st).wins ∧
        (statsOrFresh home (processMatch home away hs as2 st)).losses =
          (statsOrFresh home st).losses ∧
        (statsOrFresh home (processMatch home away hs as2 st)).points =
          (statsOrFresh home st).points + 1 ∧
        (statsOrFresh away (processMatch home away hs as2 st)).draws =
          (statsOrFresh away st).draws + 1 ∧
        (statsOrFresh away (processMatch home away hs as2 st)).wins =
          (statsOrFresh away st).wins ∧
        (statsOrFresh away (processMatch home away hs as2 st)).losses =
          (statsOrFresh away st).losses ∧
        (statsOrFresh away (processMatch home away hs as2 st)).points =
          (statsOrFresh away st).points + 1)) := by
  refine ⟨?_, ?_, ?_⟩
  · intro ms hval
    have hInv0 : OccInv ([] : TableState) := fun u => by simp [keyOcc]
    obtain ⟨st, hok, _, hw, hl, hd, hp⟩ :=
      add_matches_ok_sums ms [] hInv0 hval
    refine ⟨st, hok, ?_, ?_⟩
    · have h0 : sumWins ([] : TableState) = 0 := rfl
      have h1 : sumLosses ([] : TableState) = 0 := rfl
      omega
    · have h0 : sumPoints ([] : TableState) = 0 := rfl
      omega
  · intro m st hv
    exact ⟨add_match_valid m st hv, validRaw_ne m hv⟩
  · intro home away hs as2 st hne
    have hH := statsOrFresh_processMatch_home home away hne hs as2 st
    have hA := statsOrFresh_processMatch_away home away hne hs as2 st
    refine ⟨?_, ?_, fun hgt => ?_, fun hlt => ?_, fun heq => ?_⟩
    · rw [hH]
      split_ifs <;> simp [winUpd, lossUpd, drawUpd, homePreUpd]
    · rw [hA]
      split_ifs <;> simp [winUpd, lossUpd, drawUpd, awayPreUpd]
    · rw [if_pos hgt] at hH hA
      rw [hH, hA]
      simp [winUpd, lossUpd, homePreUpd, awayPreUpd]
    · have h1 : ¬ hs > as2 := by omega
      rw [if_neg h1, if_pos hlt] at hH hA
      rw [hH, hA]
      simp [winUpd, lossUpd, homePreUpd, awayPreUpd]
    · have h1 : ¬ hs > as2 := by omega
      have h2 : ¬ as2 > hs := by omega
      rw [if_neg h1, if_neg h2] at hH hA
      rw [hH, hA]
      simp [drawUpd, homePreUpd, awayPreUpd]

/-- The resulting accumulator of a batch (empty on an uncaught exception). -/
def okD (e : Except String TableState) : TableState :=
  match e with
  | .ok st => st
  | .error _ => []

/-- Demo batch of three valid matches between teams T1, T2, T3. -/
def demoRaw1 : RawMatch :=
  { event_id := some "m1", home_team := some "T1", away_team := some "T2",
    home_score := some 2, away_score := some 1 }

def demoRaw2 : RawMatch :=
  { event_id := some "m2", home_team := some "T1", away_team := some "T2",
    home_score := some 1, away_score := some 1 }

def demoRaw3 : RawMatch :=
  { event_id := some "m3", home_team := some "T2", away_team := some "T3",
    home_score := some 0, away_score := some 3 }

def demoMs : List RawMatch := [demoRaw1, demoRaw2, demoRaw3]

/-- Witness for C2 at a concrete batch: the win/loss and point sums hold for
a three-match batch (two decisive matches, one draw), and the first match's
decisive outcome increments exactly the winner's wins and the loser's
losses. -/
theorem C2_witness :
    sumWins (okD (add_matches demoMs [])) =
      sumLosses (okD (add_matches demoMs [])) ∧
    sumPoints (okD (add_matches demoMs [])) =
      3 * decCount demoMs + 2 * drawCount demoMs ∧
    (statsOrFresh "T1" (processMatch "T1" "T2" 2 1 [])).wins =
      (statsOrFresh "T1" ([] : TableState)).wins + 1 ∧
    (statsOrFresh "T2" (processMatch "T1" "T2" 2 1 [])).losses =
      (statsOrFresh "T2" ([] : TableState)).losses + 1 := by
  obtain ⟨st, hok, hwl, hpts⟩ :=
    C2_outcome_pairing_and_sums.1 demoMs (by decide)
  have hst : okD (add_matches demoMs []) = st := by rw [hok]; rfl
  have hp := C2_outcome_pairing_and_sums.2.2 "T1" "T2" 2 1 [] (by decide)
  exact ⟨by rw [hst]; exact hwl, by rw [hst]; exact hpts,
    (hp.2.2.1 (by decide)).1, (hp.2.2.1 (by decide)).2.2.2.2.1⟩

/-! ## Last-five results. -/

theorem lastN_of_le (n : Nat) (l : List α) (h : l.length ≤ n) :
    lastN n l = l := by
  unfold lastN
  rw [List.take_of_length_le (by simpa using h), List.reverse_reverse]

theorem length_lastN_le (n : Nat) (l : List α) : (lastN n l).length ≤ n := by
  unfold lastN
  simp [List.length_take]

theorem lastN_subset (n : Nat) (l : List α) (c : α) (h : c ∈ lastN n l) :
    c ∈ l := by
  unfold lastN at h
  rw [List.mem_reverse] at h
  have := List.take_subset n l.reverse h
  rwa [List.mem_reverse] at this

theorem lastN_append_lastN (n : Nat) (xs ys : List α) :
    lastN n (lastN n xs ++ ys) = lastN n (xs ++ ys) := by
  unfold lastN
  rw [List.reverse_append, List.reverse_reverse, List.reverse_append]
  congr 1
  rw [List.take_append_eq_append_take, List.take_append_eq_append_take,
    List.take_take]
  congr 1
  rw [Nat.min_eq_left (Nat.sub_le n _)]

theorem truncate5_last5 (s : TeamStats) :
    (truncate5 s).last_5_results = lastN 5 s.last_5_results := by
  unfold truncate5
  split
  · rfl
  · rw [lastN_of_le]
    omega

/-- The `W`/`D`/`L` code of the home side of a processed match. -/
def homeCode (hs as2 : Int) : String :=
  if hs > as2 then "W" else if as2 > hs then "L" else "D"

/-- The `W`/`D`/`L` code of the away side of a processed match. -/
def awayCode (hs as2 : Int) : String :=
  if hs > as2 then "L" else if as2 > hs then "W" else "D"

/-- The result codes a raw match appends to team `t`'s `last_5_results`, in
append order (home side first); empty if the record is skipped or `t` is not
a participant. -/
def matchCodes (t : String) (m : RawMatch) : List String :=
  match m.home_team, m.away_team, m.home_score, m.away_score with
  | some h, some a, some hs, some as2 =>
    if h = "" ∨ a = "" then []
    else
      (if t = h then [homeCode hs as2] else []) ++
      (if t = a then [awayCode hs as2] else [])
  | _, _, _, _ => []

/-- The full result-code history for team `t` over a batch, in
match-processing order. -/
def allCodes (t : String) : List RawMatch → List String
  | [] => []
  | m :: ms => matchCodes t m ++ allCodes t ms

theorem statsOrFresh_processMatch_other (home away t : String)
    (h1 : t ≠ home) (h2 : t ≠ away) (hs as2 : Int) (st : TableState) :
    statsOrFresh t (processMatch home away hs as2 st) = statsOrFresh t st := by
  unfold processMatch
  unfold statsOrFresh
  rw [getStats_updateTeam_other t away h2, getStats_updateTeam_other t home h1]
  by_cases hc1 : hs > as2
  · rw [if_pos hc1, getStats_updateTeam_other t away h2,
      getStats_updateTeam_other t home h1,
      getStats_updateTeam_other t away h2,
      getStats_updateTeam_other t home h1,
      getStats_initTeam_other t away h2, getStats_initTeam_other t home h1]
  · by_cases hc2 : as2 > hs
    · rw [if_neg hc1, if_pos hc2, getStats_updateTeam_other t away h2,
        getStats_updateTeam_other t home h1,
        getStats_updateTeam_other t away h2,
        getStats_updateTeam_other t home h1,
        getStats_initTeam_other t away h2, getStats_initTeam_other t home h1]
    · rw [if_neg hc1, if_neg hc2, getStats_updateTeam_other t away h2,
        getStats_updateTeam_other t home h1,
        getStats_updateTeam_other t away h2,
        getStats_updateTeam_other t home h1,
        getStats_initTeam_other t away h2, getStats_initTeam_other t home h1]

theorem statsOrFresh_processMatch_alias (home : String) (hs as2 : Int)
    (st : TableState) :
    statsOrFresh home (processMatch home home hs as2 st) =
      truncate5 (truncate5
        ((if hs > as2 then lossUpd (winUpd
            (awayPreUpd hs as2 (homePreUpd hs as2 (statsOrFresh home st))))
          else if as2 > hs then winUpd (lossUpd
            (awayPreUpd hs as2 (homePreUpd hs as2 (statsOrFresh home st))))
          else drawUpd (drawUpd
            (awayPreUpd hs as2 (homePreUpd hs as2 (statsOrFresh home st))))))) := by
  unfold processMatch
  unfold statsOrFresh
  rw [getStats_updateTeam_self, getStats_updateTeam_self]
  by_cases hc1 : hs > as2
  · rw [if_pos hc1, if_pos hc1]
    rw [getStats_updateTeam_self, getStats_updateTeam_self,
      getStats_updateTeam_self, getStats_updateTeam_self,
      getStats_initTeam_self]
    rw [statsOrFresh_initTeam_self]
    rfl
  · by_cases hc2 : as2 > hs
    · rw [if_neg hc1, if_pos hc2, if_neg hc1, if_pos hc2]
      rw [getStats_updateTeam_self, getStats_updateTeam_self,
        getStats_updateTeam_self, getStats_updateTeam_self,
        getStats_initTeam_self]
      rw [statsOrFresh_initTeam_self]
      rfl
    · rw [if_neg hc1, if_neg hc2, if_neg hc1, if_neg hc2]
      rw [getStats_updateTeam_self, getStats_updateTeam_self,
        getStats_updateTeam_self, getStats_updateTeam_self,
        getStats_initTeam_self]
      rw [statsOrFresh_initTeam_self]
      rfl

/-- One `add_match` step appends (and truncates) exactly the match's codes
for every team. -/
theorem add_match_last5_step (m : RawMatch) (st0 st1 : TableState)
    (hadd : add_match m st0 = Except.ok st1) (t : String)
    (hlen : (statsOrFresh t st0).last_5_results.length ≤ 5) :
    (statsOrFresh t st1).last_5_results =
      lastN 5 ((statsOrFresh t st0).last_5_results ++ matchCodes t m) := by
  obtain ⟨eid, ht2, at2, hs2, as3⟩ := m
  cases ht2 with
  | none => exact absurd hadd (by simp [add_match])
  | some h =>
  cases at2 with
  | none => exact absurd hadd (by simp [add_match])
  | some a =>
  by_cases hg : h = "" ∨ a = ""
  · have hst : st1 = st0 := by
      simp [add_match, hg] at hadd
      exact hadd.symm
    subst hst
    have hmc : matchCodes t
        { event_id := eid, home_team := some h, away_team := some a,
          home_score := hs2, away_score := as3 } = [] := by
      cases hs2 <;> cases as3 <;> simp [matchCodes, hg]
    rw [hmc, List.append_nil, lastN_of_le _ _ hlen]
  · cases hs2 with
    | none => exact absurd hadd (by simp [add_match, hg])
    | some hs0 =>
    cases as3 with
    | none => exact absurd hadd (by simp [add_match, hg])
    | some as0 =>
    have hst : st1 = processMatch h a hs0 as0 st0 := by
      simp [add_match, hg] at hadd
      exact hadd.symm
    subst hst
    by_cases hth : t = h
    · by_cases hta : t = a
      · -- aliased: t = h = a
        subst hth
        subst hta
        rw [statsOrFresh_processMatch_alias t hs0 as0 st0]
        rw [truncate5_last5, truncate5_last5,
          lastN_of_le 5 _ (length_lastN_le 5 _)]
        have ht0 : ¬ t = "" := fun hh => hg (Or.inl hh)
        by_cases hc1 : hs0 > as0
        · simp [hc1, winUpd, lossUpd, awayPreUpd, homePreUpd, homeCode,
            awayCode, matchCodes, hg, ht0]
        · by_cases hc2 : as0 > hs0
          · simp [hc1, hc2, winUpd, lossUpd, awayPreUpd, homePreUpd,
              homeCode, awayCode, matchCodes, hg, ht0]
          · simp [hc1, hc2, drawUpd, awayPreUpd, homePreUpd, homeCode,
              awayCode, matchCodes, hg, ht0]
      · -- t is the home side only
        have hne : h ≠ a := by rw [← hth]; exact hta
        subst hth
        rw [statsOrFresh_processMatch_home t a hne hs0 as0 st0,
          truncate5_last5]
        by_cases hc1 : hs0 > as0
        · simp [hc1, winUpd, homePreUpd, matchCodes, homeCode, hg, hta]
        · by_cases hc2 : as0 > hs0
          · simp [hc1, hc2, lossUpd, homePreUpd, matchCodes, homeCode, hg,
              hta]
          · simp [hc1, hc2, drawUpd, homePreUpd, matchCodes, homeCode, hg,
              hta]
    · by_cases hta : t = a
      · -- t is the away side only
        have hne : h ≠ a := by rw [← hta]; exact fun hh => hth hh.symm
        subst hta
        rw [statsOrFresh_processMatch_away h t hne hs0 as0 st0,
          truncate5_last5]
        by_cases hc1 : hs0 > as0
        · simp [hc1, lossUpd, awayPreUpd, matchCodes, awayCode, hg, hth]
        · by_cases hc2 : as0 > hs0
          · simp [hc1, hc2, winUpd, awayPreUpd, matchCodes, awayCode, hg,
              hth]
          · simp [hc1, hc2, drawUpd, awayPreUpd, matchCodes, awayCode, hg,
              hth]
      · -- t is not a participant
        rw [statsOrFresh_processMatch_other h a t hth hta hs0 as0 st0]
        have hmc : matchCodes t
            { event_id := eid, home_team := some h, away_team := some a,
              home_score := some hs0, away_score := some as0 } = [] := by
          simp [matchCodes, hg, hth, hta]
        rw [hmc, List.append_nil, lastN_of_le _ _ hlen]

/-- Batch version: a team's `last_5_results` is exactly the last five of its
full code history. -/
theorem add_matches_last5 :
    ∀ (ms : List RawMatch) (st0 st : TableState),
    add_matches ms st0 = Except.ok st → ∀ t : String,
    (statsOrFresh t st0).last_5_results.length ≤ 5 →
    (statsOrFresh t st).last_5_results =
      lastN 5 ((statsOrFresh t st0).last_5_results ++ allCodes t ms) := by
  intro ms
  induction ms with
  | nil =>
    intro st0 st hok t hlen
    have hst : st = st0 := by
      simp [add_matches] at hok
      exact hok.symm
    subst hst
    rw [lastN_of_le]
    · simp [allCodes]
    · simpa [allCodes] using hlen
  | cons m ms ih =>
    intro st0 st hok t hlen
    cases hadd : add_match m st0 with
    | error err =>
      rw [add_matches, hadd] at hok
      exact absurd hok (by simp)
    | ok st1 =>
      rw [add_matches, hadd] at hok
      have hstep := add_match_last5_step m st0 st1 hadd t hlen
      have hlen1 : (statsOrFresh t st1).last_5_results.length ≤ 5 := by
        rw [hstep]
        exact length_lastN_le 5 _
      have hrest := ih st1 st hok t hlen1
      rw [hrest, hstep, lastN_append_lastN, List.append_assoc]
      rfl

theorem matchCodes_mem (t : String) (m : RawMatch) (c : String)
    (h : c ∈ matchCodes t m) : c = "W" ∨ c = "D" ∨ c = "L" := by
  obtain ⟨eid, ht2, at2, hs2, as3⟩ := m
  cases ht2 with
  | none => simp [matchCodes] at h
  | some h2 =>
  cases at2 with
  | none => simp [matchCodes] at h
  | some a2 =>
  cases hs2 with
  | none => simp [matchCodes] at h
  | some hs0 =>
  cases as3 with
  | none => simp [matchCodes] at h
  | some as0 =>
  unfold matchCodes at h
  dsimp only at h
  by_cases hg : h2 = "" ∨ a2 = ""
  · rw [if_pos hg] at h
    simp at h
  · rw [if_neg hg, List.mem_append] at h
    unfold homeCode awayCode at h
    rcases h with h | h <;> split_ifs at h <;> simp at h <;> tauto

theorem allCodes_mem (t : String) (ms : List RawMatch) (c : String)
    (h : c ∈ allCodes t ms) : c = "W" ∨ c = "D" ∨ c = "L" := by
  induction ms with
  | nil => simp [allCodes] at h
  | cons m ms ih =>
    unfold allCodes at h
    rw [List.mem_append] at h
    rcases h with h | h
    · exact matchCodes_mem t m c h
    · exact ih h

/-- Claim C8: for every team and every batch of matches fed from a fresh
accumulator, the team's `last_5_results` never exceeds length 5, consists
only of `W`/`D`/`L` codes, and equals the last five entries of the team's
full result-code history in match-processing order (older codes are evicted
from the front). -/
theorem C8_last5_bounded_and_ordered (ms : List RawMatch) (st : TableState)
    (t : String) (hok : add_matches ms [] = Except.ok st) :
    (statsOrFresh t st).last_5_results.length ≤ 5 ∧
    (statsOrFresh t st).last_5_results = lastN 5 (allCodes t ms) ∧
    ((statsOrFresh t st).last_5_results.all
      (fun c => c == "W" || c == "D" || c == "L")) = true := by
  have hbase : (statsOrFresh t ([] : TableState)).last_5_results.length ≤ 5 := by
    simp [statsOrFresh, getStats, freshStats]
  have heq := add_matches_last5 ms [] st hok t hbase
  have heq2 : (statsOrFresh t st).last_5_results = lastN 5 (allCodes t ms) := by
    rw [heq]
    rfl
  refine ⟨?_, heq2, ?_⟩
  · rw [heq2]
    exact length_lastN_le 5 _
  · rw [List.all_eq_true]
    intro c hc
    rw [heq2] at hc
    have hmem := lastN_subset 5 (allCodes t ms) c hc
    rcases allCodes_mem t ms c hmem with h | h | h <;> simp [h]

/-- Seven-match demo batch for one team, exercising code eviction. -/
def demoMs7 : List RawMatch :=
  [{ event_id := some "g1", home_team := some "T1", away_team := some "T2",
     home_score := some 2, away_score := some 0 },
   { event_id := some "g2", home_team := some "T2", away_team := some "T1",
     home_score := some 1, away_score := some 1 },
   { event_id := some "g3", home_team := some "T1", away_team := some "T2",
     home_score := some 0, away_score := some 1 },
   { event_id := some "g4", home_team := some "T1", away_team := some "T2",
     home_score := some 3, away_score := some 1 },
   { event_id := some "g5", home_team := some "T2", away_team := some "T1",
     home_score := some 0, away_score := some 2 },
   { event_id := some "g6", home_team := some "T1", away_team := some "T2",
     home_score := some 1, away_score := some 1 },
   { event_id := some "g7", home_team := some "T2", away_team := some "T1",
     home_score := some 4, away_score := some 0 }]

/-- Witness for C8 at a concrete seven-match batch: the length bound holds
and the kept codes are exactly the last five of the full history. -/
theorem C8_witness :
    (statsOrFresh "T1" (okD (add_matches demoMs7 []))).last_5_results.length
      ≤ 5 ∧
    (statsOrFresh "T1" (okD (add_matches demoMs7 []))).last_5_results =
      lastN 5 (allCodes "T1" demoMs7) :=
  have h := C8_last5_bounded_and_ordered demoMs7
    (okD (add_matches demoMs7 [])) "T1" (by rfl)
  ⟨h.1, h.2.1⟩

/-! ## Table generation (`LeagueTableGenerator.generate_table`). -/

/-- The goal-difference recomputation loop of `generate_table`
(`stats['goal_difference'] = stats['goals_for'] - stats['goals_against']`),
over the dict values in insertion order. -/
def recompute_gd (st : TableState) : List TeamStats :=
  st.map (fun p =>
    { p.2 with goal_difference := p.2.goals_for - p.2.goals_against })

/-- The sort key `(points, goal_difference, goals_for)`. -/
def sortKey (s : TeamStats) : Nat × Int × Int :=
  (s.points, s.goal_difference, s.goals_for)

/-- Lexicographic key comparison: `sortKey x >= sortKey y`.  This is the
"may come first" relation of the descending stable sort
(`sorted(..., key=..., reverse=True)`). -/
def keyLexGE (x y : TeamStats) : Prop :=
  y.points < x.points ∨
    (x.points = y.points ∧
      (y.goal_difference < x.goal_difference ∨
        (x.goal_difference = y.goal_difference ∧ y.goals_for ≤ x.goals_for)))

instance (x y : TeamStats) : Decidable (keyLexGE x y) := by
  unfold keyLexGE
  infer_instance

def sortKeyGE (x y : TeamStats) : Bool := decide (keyLexGE x y)

/-- `for i, team in enumerate(sorted_teams, 1): team['position'] = i`. -/
def assignPositions : Nat → List TeamStats → List TeamStats
  | _, [] => []
  | i, r :: rs => { r with position := i } :: assignPositions (i + 1) rs

/-- `LeagueTableGenerator.generate_table`: recompute goal differences, sort
by `(points, goal_difference, goals_for)` descending with a stable sort, and
assign 1-based positions. -/
def generate_table (st : TableState) : List TeamStats :=
  assignPositions 1 ((recompute_gd st).mergeSort sortKeyGE)

theorem sortKeyGE_trans (a b c : TeamStats) (hab : sortKeyGE a b)
    (hbc : sortKeyGE b c) : sortKeyGE a c := by
  simp only [sortKeyGE, decide_eq_true_eq] at *
  unfold keyLexGE at *
  omega

theorem sortKeyGE_total (a b : TeamStats) : sortKeyGE a b || sortKeyGE b a := by
  simp only [sortKeyGE, Bool.or_eq_true, decide_eq_true_eq]
  unfold keyLexGE
  omega

theorem sortKeyGE_of_key_eq (a b : TeamStats) (h : sortKey a = sortKey b) :
    sortKeyGE a b = true := by
  simp only [sortKey, Prod.mk.injEq] at h
  simp only [sortKeyGE, decide_eq_true_eq]
  unfold keyLexGE
  omega

theorem mem_assignPositions (b : TeamStats) :
    ∀ (i : Nat) (l : List TeamStats), b ∈ assignPositions i l →
      ∃ (a : TeamStats) (j : Nat), a ∈ l ∧ b = { a with position := j } := by
  intro i l
  induction l generalizing i with
  | nil => intro h; simp [assignPositions] at h
  | cons r rs ih =>
    intro h
    rcases List.mem_cons.mp h with h | h
    · exact ⟨r, i, List.mem_cons_self r rs, h⟩
    · obtain ⟨a, j, ha, hb⟩ := ih (i + 1) h
      exact ⟨a, j, List.mem_cons_of_mem r ha, hb⟩

theorem pairwise_assignPositions {R : TeamStats → TeamStats → Prop}
    (hR : ∀ (a b : TeamStats) (i j : Nat), R a b →
      R { a with position := i } { b with position := j }) :
    ∀ (i : Nat) (l : List TeamStats), l.Pairwise R →
      (assignPositions i l).Pairwise R := by
  intro i l
  induction l generalizing i with
  | nil => intro _; exact List.Pairwise.nil
  | cons r rs ih =>
    intro h
    rw [List.pairwise_cons] at h
    refine List.Pairwise.cons ?_ (ih (i + 1) h.2)
    intro b hb
    obtain ⟨a, j, ha, rfl⟩ := mem_assignPositions b (i + 1) rs hb
    exact hR r a i j (h.1 a ha)

theorem assignPositions_positions :
    ∀ (i : Nat) (l : List TeamStats),
      (assignPositions i l).map (fun r => r.position) =
        List.range' i l.length := by
  intro i l
  induction l generalizing i with
  | nil => rfl
  | cons r rs ih =>
    show ({ r with position := i } :: assignPositions (i + 1) rs).map
        (fun r => r.position) = List.range' i (rs.length + 1)
    rw [List.map_cons, ih]
    rfl

theorem filter_names_assignPositions (P : TeamStats → Bool)
    (hP : ∀ (r : TeamStats) (i : Nat), P { r with position := i } = P r) :
    ∀ (i : Nat) (l : List TeamStats),
      ((assignPositions i l).filter P).map (fun r => r.team_name) =
        (l.filter P).map (fun r => r.team_name) := by
  intro i l
  induction l generalizing i with
  | nil => rfl
  | cons r rs ih =>
    show ((({ r with position := i } : TeamStats) ::
      assignPositions (i + 1) rs).filter P).map (fun r => r.team_name) = _
    rw [List.filter_cons, List.filter_cons, hP r i]
    by_cases hp : P r
    · rw [if_pos (by simp [hp]), if_pos (by simp [hp]), List.map_cons,
        List.map_cons, ih]
    · rw [if_neg (by simp [hp]), if_neg (by simp [hp]), ih]

theorem pairwise_of_forall_mem (R : TeamStats → TeamStats → Prop) :
    ∀ l : List TeamStats, (∀ a ∈ l, ∀ b ∈ l, R a b) → l.Pairwise R := by
  intro l
  induction l with
  | nil => intro _; exact List.Pairwise.nil
  | cons r rs ih =>
    intro h
    refine List.Pairwise.cons ?_ (ih ?_)
    · intro b hb
      exact h r (List.mem_cons_self r rs) b (List.mem_cons_of_mem r hb)
    · intro a ha b hb
      exact h a (List.mem_cons_of_mem r ha) b (List.mem_cons_of_mem r hb)

/-- Stability of the sort: the rows of any fixed key value keep their
relative (insertion) order. -/
theorem mergeSort_filter_eq_key (l : List TeamStats) (k : Nat × Int × Int) :
    (l.mergeSort sortKeyGE).filter (fun r => sortKey r == k) =
      l.filter (fun r => sortKey r == k) := by
  have hperm : List.Perm
      ((l.mergeSort sortKeyGE).filter (fun r => sortKey r == k))
      (l.filter (fun r => sortKey r == k)) :=
    (List.mergeSort_perm l sortKeyGE).filter _
  have hpair : (l.filter (fun r => sortKey r == k)).Pairwise
      (fun a b => sortKeyGE a b = true) := by
    apply pairwise_of_forall_mem
    intro a ha b hb
    rw [List.mem_filter] at ha hb
    have hka : sortKey a = k := by simpa using ha.2
    have hkb : sortKey b = k := by simpa using hb.2
    exact sortKeyGE_of_key_eq a b (hka.trans hkb.symm)
  have hsub : List.Sublist (l.filter (fun r => sortKey r == k))
      (l.mergeSort sortKeyGE) :=
    List.sublist_mergeSort sortKeyGE_trans sortKeyGE_total hpair
      (List.filter_sublist l)
  have hsub2 : List.Sublist (l.filter (fun r => sortKey r == k))
      ((l.mergeSort sortKeyGE).filter (fun r => sortKey r == k)) := by
    have h2 := hsub.filter (fun r => sortKey r == k)
    rwa [List.filter_filter, (by
      funext r
      exact Bool.and_self _ : (fun r =>
        (sortKey r == k) && (sortKey r == k)) = fun r => sortKey r == k)]
      at h2
  exact (hsub2.eq_of_length hperm.length_eq.symm).symm

/-- Claim C3: for every accumulator state, `generate_table` (i) is sorted so
that every pair of rows — in particular every adjacent pair — has
lexicographically non-increasing `(points, goal_difference, goals_for)`
keys, (ii) carries goal differences recomputed as `goals_for -
goals_against`, (iii) assigns positions as the consecutive 1-based ranks
`1, 2, ..., n` with no gap-closing for equal keys, and (iv) keeps rows with
any equal key tuple in stable first-insertion order. -/
theorem C3_generate_table_sorted_stable (st : TableState)
    (k : Nat × Int × Int) :
    (generate_table st).Pairwise keyLexGE ∧
    ((generate_table st).all
      (fun r => r.goal_difference == r.goals_for - r.goals_against)) = true ∧
    (generate_table st).map (fun r => r.position) =
      List.range' 1 st.length ∧
    ((generate_table st).filter (fun r => sortKey r == k)).map
        (fun r => r.team_name) =
      ((recompute_gd st).filter (fun r => sortKey r == k)).map
        (fun r => r.team_name) := by
  refine ⟨?_, ?_, ?_, ?_⟩
  · unfold generate_table
    apply pairwise_assignPositions (fun a b i j hab => hab)
    have hs := List.sorted_mergeSort sortKeyGE_trans sortKeyGE_total
      (recompute_gd st)
    exact hs.imp (fun {a b} hab => of_decide_eq_true hab)
  · rw [List.all_eq_true]
    intro r hr
    unfold generate_table at hr
    obtain ⟨a, j, ha, rfl⟩ := mem_assignPositions r 1 _ hr
    rw [List.mem_mergeSort] at ha
    unfold recompute_gd at ha
    rw [List.mem_map] at ha
    obtain ⟨p, _, rfl⟩ := ha
    simp
  · unfold generate_table
    rw [assignPositions_positions, List.length_mergeSort]
    unfold recompute_gd
    rw [List.length_map]
  · unfold generate_table
    rw [filter_names_assignPositions (fun r => sortKey r == k)
      (fun r i => rfl), mergeSort_filter_eq_key]

end VFP
